import Mathlib

/-!
Verification of the NL2SQL python sidecar (`python-sidecar/`): a shallow
embedding in Lean of the pure string- and data-processing logic of
`app.py`, `config.py`, `keyword_filter.py`, `semantic_validator.py`,
`hrida_client.py`, `ollama_client.py` and `config_loader.py`, together
with theorems about retrieval fallback, repair-confidence arithmetic,
prompt composition, gibberish detection, candidate deduplication and
configuration merging.

Python strings are modelled as Lean `String`s (operated on through their
`List Char` data); Python floats are modelled as exact rationals `ℚ`
(the constants involved are decimal literals and the code only adds,
subtracts, compares and clamps them); Python dicts are modelled as
association lists in insertion order.  Network calls are modelled as
oracle inputs carrying the text the LLM endpoint would return, or the
transport failure.  Regex-based extractor functions of
`semantic_validator.py` are modelled as oracle inputs where noted; all
other string logic is embedded directly.
-/

namespace NL2SQL

/-! ## Python string primitives (on `List Char`) -/

/-- Python `\s` whitespace class restricted to ASCII, which is what the
sidecar's strings contain: space, tab, newline, carriage return,
vertical tab, form feed. -/
def isPySpace (c : Char) : Bool :=
  c = ' ' || c = '\t' || c = '\n' || c = '\r' || c = Char.ofNat 11 || c = Char.ofNat 12

/-- `startsWithCh hay sub`: `hay` begins with `sub`. -/
def startsWithCh : List Char → List Char → Bool
  | _, [] => true
  | [], _ :: _ => false
  | c :: t, d :: u => c = d && startsWithCh t u

/-- Python `sub in hay` (substring containment). -/
def containsSub (sub : List Char) : List Char → Bool
  | [] => startsWithCh [] sub
  | c :: t => startsWithCh (c :: t) sub || containsSub sub t

/-- Fuel-indexed scanner for Python `hay.count(sub)`: on a match, skip
past the matched occurrence (non-overlapping, left to right).  Each
step consumes at least one character, so fuel `hay.length` is exact;
the fuel keeps the recursion structural (kernel-reducible). -/
def countSubFuel (sub : List Char) : Nat → List Char → Nat
  | _, [] => 0
  | 0, _ :: _ => 0
  | fuel + 1, c :: t =>
    if startsWithCh (c :: t) sub then
      1 + countSubFuel sub fuel (t.drop (sub.length - 1))
    else
      countSubFuel sub fuel t

/-- Python `hay.count(sub)` for nonempty `sub`: number of non-overlapping
occurrences, scanning left to right. -/
def countSub (sub hay : List Char) : Nat := countSubFuel sub hay.length hay

/-- The longest prefix of `hay` before the first occurrence of nonempty
`sub`; the whole of `hay` if `sub` does not occur.  This is Python
`hay.split(sub)[0]`. -/
def beforeSub (sub : List Char) : List Char → List Char
  | [] => []
  | c :: t => if startsWithCh (c :: t) sub then [] else c :: beforeSub sub t

/-- Helper for `collapseWs`: the flag records whether the previous
character was whitespace (so the current run has already emitted its
single space). -/
def collapseWsAux : Bool → List Char → List Char
  | _, [] => []
  | prevSpace, c :: t =>
    if isPySpace c then
      if prevSpace then collapseWsAux true t else ' ' :: collapseWsAux true t
    else c :: collapseWsAux false t

/-- Python `re.sub(r'\s+', ' ', s)`: collapse every maximal run of
whitespace to a single space. -/
def collapseWs (cs : List Char) : List Char := collapseWsAux false cs

/-- Python `s.strip()` on the character list. -/
def stripCh (cs : List Char) : List Char :=
  ((cs.dropWhile (isPySpace ·)).reverse.dropWhile (isPySpace ·)).reverse

/-! String-level wrappers. -/

/-- Python `s.upper()` (ASCII; non-ASCII characters in the sidecar's
strings are unaffected by either language's case mapping). -/
def pyUpper (s : String) : String := ⟨s.data.map Char.toUpper⟩

/-- Python `s.lower()` (ASCII). -/
def pyLower (s : String) : String := ⟨s.data.map Char.toLower⟩

/-- Python `s.strip()`. -/
def pyStrip (s : String) : String := ⟨stripCh s.data⟩

/-- Python `sub in hay`. -/
def pyContains (hay sub : String) : Bool := containsSub sub.data hay.data

/-- Python `hay.count(sub)`. -/
def pyCount (hay sub : String) : Nat := countSub sub.data hay.data

/-- Python `hay.startswith(sub)`. -/
def pyStartsWith (hay sub : String) : Bool := startsWithCh hay.data sub.data

/-- Python `hay.endswith(sub)`. -/
def pyEndsWith (hay sub : String) : Bool :=
  startsWithCh hay.data.reverse sub.data.reverse

/-- Python `len(s)`. -/
def pyLen (s : String) : Nat := s.data.length

/-- Python `", ".join(xs)`-style joining with a separator. -/
def joinSep (sep : String) : List String → String
  | [] => ""
  | [x] => x
  | x :: y :: rest => x ++ sep ++ joinSep sep (y :: rest)

/-! ## `_estimate_confidence`
(`ollama_client.py` lines 229-264 and the identical
`hrida_client.py` lines 155-190). -/

/-- Confidence estimator for a generated SQL string, embedded from
`OllamaClient._estimate_confidence` / `HridaClient._estimate_confidence`
(the two method bodies are identical).  Sequential penalties and bonus,
then a final clamp, exactly as in the source. -/
def estimateConfidence (sql : String) : ℚ :=
  let confidence : ℚ := 1
  let joinCount := pyCount (pyUpper sql) "JOIN"
  let confidence := if joinCount > 2 then confidence - 2/10 else confidence
  let confidence := if pyContains (pyUpper sql) "HAVING" then confidence - 1/10 else confidence
  let confidence :=
    if pyContains (pyUpper sql) "WINDOW" || pyContains (pyUpper sql) "OVER" then
      confidence - 1/10
    else confidence
  let confidence := if pyLen sql > 500 then confidence - 2/10 else confidence
  let subqueryCount := pyCount sql "(SELECT"
  let confidence := if subqueryCount > 1 then confidence - 15/100 else confidence
  let confidence := if joinCount = 0 ∧ pyLen sql < 100 then confidence + 1/10 else confidence
  max 0 (min 1 confidence)

/-! ## `_is_gibberish`
(`ollama_client.py` lines 162-203; `hrida_client.py` lines 120-153). -/

/-- Head test for regex `er\d`-tail: the list starts with `e`, `r`, then
a digit. -/
def erDigitHead : List Char → Bool
  | 'e' :: 'r' :: d :: _ => d.isDigit
  | _ => false

/-- `re.search(r'\d{2,4}er\d+', text)` as a Boolean: some suffix starts
with a run of 2 to 4 digits followed by `er` and at least one digit.
Scanning every suffix reproduces the regex's search-anywhere semantics
(for a run longer than 4 the match starts inside the run). -/
def hasNoise : List Char → Bool
  | [] => false
  | c :: t =>
    (decide (2 ≤ ((c :: t).takeWhile (·.isDigit)).length)
      && decide (((c :: t).takeWhile (·.isDigit)).length ≤ 4)
      && erDigitHead ((c :: t).drop ((c :: t).takeWhile (·.isDigit)).length))
    || hasNoise t

/-- One `"x"` group of the triple-quoted-letter regex: a double quote, a
single ASCII letter, a double quote; returns the rest on success. -/
def quotedLetter : List Char → Option (List Char)
  | '"' :: c :: '"' :: rest => if c.isAlpha then some rest else none
  | _ => none

/-- `\s+`: at least one whitespace character; returns the rest after the
maximal run (the following literal `"` is never whitespace, so greedy
matching is exact). -/
def wsPlus (cs : List Char) : Option (List Char) :=
  match cs with
  | [] => none
  | c :: t => if isPySpace c then some (t.dropWhile (isPySpace ·)) else none

/-- Anchored test for regex `"[a-zA-Z]"\s+"[a-zA-Z]"\s+"[a-zA-Z]"`. -/
def tripleQuotedAt (cs : List Char) : Bool :=
  (do
    let r1 ← quotedLetter cs
    let r2 ← wsPlus r1
    let r3 ← quotedLetter r2
    let r4 ← wsPlus r3
    let _ ← quotedLetter r4
    pure ()).isSome

/-- `re.search(r'"[a-zA-Z]"\s+"[a-zA-Z]"\s+"[a-zA-Z]"', text)` as a
Boolean: the anchored test succeeds at some suffix. -/
def hasTripleQuoted : List Char → Bool
  | [] => false
  | c :: t => tripleQuotedAt (c :: t) || hasTripleQuoted t

/-- Anchored test for regex `INSERT\(ta\s*\(insert` (case-insensitive),
applied to an already lowercased list.  `\s*` is greedy and exact since
`(` is not whitespace. -/
def insertPatAt (cs : List Char) : Bool :=
  startsWithCh cs "insert(ta".data
    && startsWithCh ((cs.drop 9).dropWhile (isPySpace ·)) "(insert".data

/-- `re.search(r'INSERT\(ta\s*\(insert', text, re.IGNORECASE)` as a
Boolean over the lowercased text. -/
def hasInsertPat : List Char → Bool
  | [] => false
  | c :: t => insertPatAt (c :: t) || hasInsertPat t

/-- `OllamaClient._is_gibberish(text, multi_candidate)`
(`ollama_client.py` lines 162-203): the six patterns in source order,
with relaxed bracket limits in multi-candidate mode and the short-text
check disabled there. -/
def ollamaIsGibberish (text : String) (multiCandidate : Bool) : Bool :=
  hasNoise text.data
  || hasTripleQuoted text.data
  || hasInsertPat (text.data.map Char.toLower)
  || (let parenLimit : Nat := if multiCandidate then 60 else 10
      let bracketLimit : Nat := if multiCandidate then 30 else 5
      decide (text.data.count '(' > parenLimit) || decide (text.data.count '[' > bracketLimit))
  || (!multiCandidate && decide (pyLen text < 20) && !(pyStartsWith (pyUpper text) "SELECT"))
  || pyContains (pyUpper text) "CANNOT_GENERATE"

/-- `HridaClient._is_gibberish(text)` (`hrida_client.py` lines 120-153):
the same six patterns with fixed limits 10 and 5 and the short-text
check always active. -/
def hridaIsGibberish (text : String) : Bool :=
  hasNoise text.data
  || hasTripleQuoted text.data
  || hasInsertPat (text.data.map Char.toLower)
  || (decide (text.data.count '(' > 10) || decide (text.data.count '[' > 5))
  || (decide (pyLen text < 20) && !(pyStartsWith (pyUpper text) "SELECT"))
  || pyContains (pyUpper text) "CANNOT_GENERATE"

/-! ## Multi-candidate generation with deduplication
(`ollama_client.py` `generate_candidates_parallel` lines 372-438 and
`generate_candidates_sequential` lines 440-496). -/

/-- `re.sub(r'\s+', ' ', sql.lower().strip())`: the normal form used for
candidate deduplication. -/
def normalizeSql (sql : String) : String :=
  ⟨collapseWs (stripCh (sql.data.map Char.toLower))⟩

/-- The outcome of one candidate-generation call: an exception message,
or `(sql, confidence, prompt_tokens, completion_tokens)` as returned by
`generate_sql` / `generate_sql_async`. -/
abbrev GenResult := Except String (String × ℚ × ℕ × ℕ)

/-- The shared accumulation loop of both multi-candidate generators:
skip failed results, aggregate token counts (prompt tokens from the
first successful result), and append a candidate only when its normal
form has not been seen. -/
def candidatesLoop : List GenResult → List String → List (String × ℚ) → ℕ → ℕ →
    List (String × ℚ) × ℕ × ℕ
  | [], _, cands, pt, ct => (cands, pt, ct)
  | .error _ :: rest, seen, cands, pt, ct => candidatesLoop rest seen cands pt ct
  | .ok (sql, conf, ptoks, ctoks) :: rest, seen, cands, pt, ct =>
    let ct := ct + ctoks
    let pt := if pt = 0 then ptoks else pt
    let normalized := normalizeSql sql
    if normalized ∈ seen then candidatesLoop rest seen cands pt ct
    else candidatesLoop rest (normalized :: seen) (cands ++ [(sql, conf)]) pt ct

/-- `OllamaClient.generate_candidates_parallel`, after the `gather`:
the per-task results (exception or tuple) are folded through the
dedup/aggregation loop.  The K concurrent calls themselves are network
effects, modelled by the `results` input. -/
def generateCandidatesParallel (results : List GenResult) :
    List (String × ℚ) × ℕ × ℕ :=
  candidatesLoop results [] [] 0 0

/-- `OllamaClient.generate_candidates_sequential`: the per-iteration
outcomes (caught `OllamaClientError` or tuple) are folded through the
same dedup/aggregation loop. -/
def generateCandidatesSequential (results : List GenResult) :
    List (String × ℚ) × ℕ × ℕ :=
  candidatesLoop results [] [] 0 0

/-! ## Python `str.format` (keyword fields only)

The sidecar's templates use only plain `{name}` fields (no escapes, no
format specs), and `.format` is always called with keyword arguments.
A field whose name is not among the arguments raises `KeyError(name)`,
which is what makes the legacy postgres-delta path fail; extra
arguments are ignored. -/

/-- Scanner for `str.format`, tail-recursive: `inField = false` scans
literal text, `inField = true` accumulates a field name (reversed)
until `}`; `out` is the output accumulated in reverse. -/
def formatAux (args : List (String × String)) :
    Bool → List Char → List Char → List Char → Except String (List Char)
  | false, _, out, [] => .ok out.reverse
  | false, _, out, '{' :: rest => formatAux args true [] out rest
  | false, _, out, c :: rest => formatAux args false [] (c :: out) rest
  | true, _, _, [] => .error "ValueError: unmatched brace"
  | true, nameAcc, out, '}' :: rest =>
    match args.lookup ⟨nameAcc.reverse⟩ with
    | some v => formatAux args false [] (v.data.reverseAux out) rest
    | none => .error ⟨nameAcc.reverse⟩
  | true, nameAcc, out, c :: rest => formatAux args true (c :: nameAcc) out rest

/-- Python `template.format(**args)` for plain keyword fields; `.error
name` models `KeyError(name)`. -/
def formatTemplate (template : String) (args : List (String × String)) :
    Except String String :=
  (formatAux args false [] [] template.data).map (⟨·⟩)

end NL2SQL

deriving instance DecidableEq for Except

namespace NL2SQL

/-! ## Prompt templates and schema constants (`config.py`) -/

/-- `config.py` `DOMAIN_KNOWLEDGE` (lines 58-64). -/
def DOMAIN_KNOWLEDGE : String := "
Domain-Specific Rules:
- State codes are 2-letter abbreviations (e.g., 'CA', 'NY', 'TX', not \"California\")
- Midwest states: IL, IN, IA, KS, MI, MN, MO, NE, ND, OH, SD, WI
- Revenue is already in millions - don't convert
- Years are 2017-2026 (10 years of data)
"

/-- `config.py` `HRIDA_BASE_PROMPT` (lines 69-125). -/
def HRIDA_BASE_PROMPT : String := "Generate PostgreSQL SELECT query for the mcptest database.

## Database Schema

{schema}

## PostgreSQL-Specific Rules (IMPORTANT)

1. **Decade Grouping:** Use `(year / 10) * 10` NOT `EXTRACT(DECADE FROM year)`
   - EXTRACT(DECADE ...) does NOT exist in PostgreSQL
   - Example: `SELECT (founding_year / 10) * 10 as decade, COUNT(*) FROM companies GROUP BY decade`

2. **Min/Max Values:** Prefer `ORDER BY + LIMIT` over `MIN()/MAX()` without GROUP BY
   - WRONG: `SELECT name, MIN(founding_year) FROM companies` (missing GROUP BY)
   - RIGHT: `SELECT name, founding_year FROM companies ORDER BY founding_year ASC LIMIT 1`

3. **String Literals:** Always use single quotes for strings
   - RIGHT: `WHERE column = 'value'`
   - WRONG: `WHERE column = \"value\"` (double quotes are for identifiers)

4. **Table Aliases:** Use short aliases for readability
   - `companies` → `c`
   - `company_revenue_annual` → `r`

5. **JOIN Pattern:**
   ```sql
   FROM companies c
   JOIN company_revenue_annual r ON c.company_id = r.company_id
   ```

6. **Single statement only:** Output one SELECT statement, no multiple queries

## Example Queries (patterns only - use actual values from the question)

- \"Which state is [Company] in?\" → `SELECT state FROM companies WHERE name = '[Company]'`
- \"How many companies in [State]?\" → `SELECT COUNT(*) FROM companies WHERE state = '[STATE_CODE]'`
- \"Show revenue for [Company]\" → `SELECT r.* FROM company_revenue_annual r JOIN companies c ON r.company_id = c.company_id WHERE c.name = '[Company]'`
- \"Top N companies by revenue\" → `SELECT c.name, SUM(r.revenue_millions) ... GROUP BY ... ORDER BY ... DESC LIMIT N`

**IMPORTANT:** Extract actual entity names from the question. If the question mentions a specific company name, your SQL MUST include that exact name in a WHERE clause.

{domain_knowledge}

## Output Rules

1. Output ONLY the SQL query, nothing else
2. Query MUST start with SELECT
3. Single statement only (no multiple queries separated by semicolons)
4. If you cannot generate valid SQL, respond: CANNOT_GENERATE

## Question

{question}

## SQL Query

"

/-- `config.py` `REPAIR_DELTA_VALIDATOR` (lines 129-139). -/
def REPAIR_DELTA_VALIDATOR : String := "
## Previous Attempt Had Validation Issues

{validator_issues_formatted}

**Critical Instructions:**
- Fix ALL validation errors listed above
- Only use these tables: {allowed_tables}
- Do NOT use dangerous keywords or functions
- Ensure query starts with SELECT
"

/-- `config.py` `REPAIR_DELTA_POSTGRES` (lines 141-160).  Note that the
template has a `column_candidates_section` field. -/
def REPAIR_DELTA_POSTGRES : String := "
## Previous SQL Failed PostgreSQL Validation

**Error Code:** {sqlstate}
**Message:** {message}
{hint_section}

**Previous SQL That Failed:**
```sql
{previous_sql}
```

**What Went Wrong:**
{sqlstate_hint}

{column_candidates_section}

**Your Task:**
Generate a CORRECTED SQL query that fixes the error above.
"

/-- `config.py` `REPAIR_DELTA_SEMANTIC` (lines 220-236). -/
def REPAIR_DELTA_SEMANTIC : String := "
## Semantic Mismatch Detected

Your SQL does not correctly reference entities mentioned in the question.

{semantic_issues_formatted}

**Critical:** If the question asks about a specific company (e.g., \"Titan Financial Services\"),
your SQL MUST include `WHERE name = 'Titan Financial Services'` (or similar).

**Previous SQL That Missed Entities:**
```sql
{previous_sql}
```

Generate corrected SQL that properly references ALL entities from the question.
"

/-- `config.py` `SQLSTATE_HINTS` (lines 272-280), in dict insertion
order. -/
def SQLSTATE_HINTS : List (String × String) :=
  [("42P01", "Table does not exist. Check table name spelling. Valid tables: {allowed_tables}"),
   ("42703", "Column does not exist. Verify column names match the schema exactly."),
   ("42601", "Syntax error. Check for missing parentheses, quotes, or keywords."),
   ("42P10", "Invalid column reference. Use explicit table aliases to resolve ambiguity."),
   ("42804", "Datatype mismatch. Ensure comparisons use compatible types (e.g., text = 'value', not text = 123)."),
   ("42883", "Function does not exist. Check function name and argument types. PostgreSQL does not have EXTRACT(DECADE FROM ...)."),
   ("42501", "Permission denied. Query must be SELECT only (read-only access).")]

/-- One table of the hardcoded schema dict: the fields read by the
embedded code (`columns`, `description`, `foreign_keys` as ordered
pairs, `primary_key` normalised to a list).  The `sample_values` entry
of `MCPTEST_SCHEMA` is read by no function modelled here and is
omitted. -/
structure TableInfo where
  columns : List String
  primaryKey : List String
  foreignKeys : List (String × String)
  description : String
deriving DecidableEq, Repr

/-- A schema dict in insertion order: table name to table info. -/
abbrev Schema := List (String × TableInfo)

/-- `config.py` `MCPTEST_SCHEMA` (lines 33-55). -/
def MCPTEST_SCHEMA : Schema :=
  [("companies",
    { columns := ["company_id", "name", "founding_year", "state"],
      primaryKey := ["company_id"],
      foreignKeys := [],
      description := "100 companies with founding year and US state (2-letter code)" }),
   ("company_revenue_annual",
    { columns := ["company_id", "year", "revenue_millions"],
      primaryKey := ["company_id", "year"],
      foreignKeys := [("company_id", "companies.company_id")],
      description := "Annual revenue data 2017-2026, 10 years per company, revenue in millions of dollars" })]

/-! ## Prompt builders (`config.py`) -/

/-- The schema block of `build_hrida_prompt` (`config.py` lines
297-308): one `**table:** cols` header, a description line and one
`Foreign Key` line per FK, then a blank line, per table. -/
def buildSchemaText (schema : Schema) : String :=
  schema.foldl (fun acc kv =>
    acc ++ "**" ++ kv.1 ++ ":** " ++ joinSep ", " kv.2.columns ++ "\n"
      ++ "  Description: " ++ kv.2.description ++ "\n"
      ++ kv.2.foreignKeys.foldl (fun a fk =>
           a ++ "  Foreign Key: " ++ fk.1 ++ " → " ++ fk.2 ++ "\n") ""
      ++ "\n") ""

/-- `build_hrida_prompt(question, schema)` (`config.py` lines 282-317). -/
def buildHridaPrompt (question : String) (schema : Schema) :
    Except String String :=
  formatTemplate HRIDA_BASE_PROMPT
    [("schema", pyStrip (buildSchemaText schema)),
     ("domain_knowledge", DOMAIN_KNOWLEDGE),
     ("question", question)]

/-- A semantic-validator issue dict: the keys the embedded code reads.
`entity` is present only on `MISSING_ENTITY` issues; `suggestion` is
always set by the validator (Python tests its truthiness, modelled by
comparison with `""`). -/
structure Issue where
  code : String
  severity : String
  message : String
  suggestion : String
  entity : Option String := none
deriving DecidableEq, Repr

/-- A structural-validator issue as received over RPC, reduced to the
four values `format_validator_issues` reads (with its `.get`
defaults already applied). -/
structure VIssue where
  severity : String
  code : String
  message : String
  suggestion : String
deriving DecidableEq, Repr

/-- The severity-to-emoji map shared by `format_semantic_issues`
(`semantic_validator.py` line 261) and `format_validator_issues`
(`config.py` line 779). -/
def severityEmoji (severity : String) : String :=
  if severity = "error" then "❌"
  else if severity = "warning" then "⚠️"
  else if severity = "info" then "ℹ️"
  else "•"

/-- `format_semantic_issues(issues)` (`semantic_validator.py` lines
253-269). -/
def formatSemanticIssues (issues : List Issue) : String :=
  if issues.isEmpty then "No semantic issues found."
  else
    joinSep "\n" (issues.flatMap (fun i =>
      [severityEmoji i.severity ++ " **" ++ i.code ++ "**: " ++ i.message]
      ++ (if i.suggestion ≠ "" then ["   → " ++ i.suggestion] else [])
      ++ (match i.entity with
          | some e => ["   Entity: '" ++ e ++ "'"]
          | none => [])))

/-- `format_validator_issues(issues)` (`config.py` lines 758-785). -/
def formatValidatorIssues (issues : List VIssue) : String :=
  if issues.isEmpty then "No specific issues provided."
  else
    joinSep "\n" (issues.flatMap (fun i =>
      [severityEmoji i.severity ++ " **" ++ i.code ++ "**: " ++ i.message]
      ++ (if i.suggestion ≠ "" then ["   → Suggestion: " ++ i.suggestion] else [])))

/-- A `postgres_error` dict: the keys `build_repair_prompt` reads.
`none` models a missing key (`.get` returning `None`). -/
structure PgError where
  sqlstate : Option String
  message : Option String
  hint : Option String
deriving DecidableEq, Repr

/-- `build_repair_prompt` (`config.py` lines 673-755): base prompt plus
delta blocks in the order semantic, validator, postgres; composed as
`base + "\n\n" + "\n\n".join(delta_blocks)`.  A raised `KeyError` /
`ValueError` from `str.format` propagates as `.error`. -/
def buildRepairPrompt (question previousSql : String) (schema : Schema)
    (validatorIssues : List VIssue) (postgresError : Option PgError)
    (semanticIssues : List Issue) (allowedTables : Option (List String)) :
    Except String String := do
  let allowedTables := allowedTables.getD (schema.map (·.1))
  let base ← buildHridaPrompt question schema
  let deltas1 ←
    if semanticIssues.isEmpty then pure []
    else do
      let d ← formatTemplate REPAIR_DELTA_SEMANTIC
        [("semantic_issues_formatted", formatSemanticIssues semanticIssues),
         ("previous_sql", previousSql)]
      pure [d]
  let deltas2 ←
    if validatorIssues.isEmpty then pure deltas1
    else do
      let d ← formatTemplate REPAIR_DELTA_VALIDATOR
        [("validator_issues_formatted", formatValidatorIssues validatorIssues),
         ("allowed_tables", joinSep ", " allowedTables)]
      pure (deltas1 ++ [d])
  let deltas3 ←
    match postgresError with
    | none => pure deltas2
    | some pg => do
      let hintText :=
        match pg.hint with
        | some h => if h ≠ "" then "**Hint:** " ++ h else ""
        | none => ""
      let sqlstate := pg.sqlstate.getD "Unknown"
      let rawHint := (SQLSTATE_HINTS.lookup sqlstate).getD
        "Review the error message and previous SQL carefully."
      let sqlstateHint ← formatTemplate rawHint
        [("allowed_tables", joinSep ", " allowedTables)]
      let d ← formatTemplate REPAIR_DELTA_POSTGRES
        [("sqlstate", sqlstate),
         ("message", pg.message.getD "Unknown error"),
         ("hint_section", hintText),
         ("previous_sql", previousSql),
         ("sqlstate_hint", sqlstateHint)]
      pure (deltas2 ++ [d])
  pure (base ++ "\n\n" ++ joinSep "\n\n" deltas3)

/-! ## The Hrida client (`hrida_client.py` `HridaClient.generate_sql`,
lines 43-118) -/

/-- The outcome of one HTTP call to the LLM endpoint, as seen by the
client: a response body text, a `requests.Timeout`, or another
`requests.RequestException` (connection/transport failure) with its
message. -/
inductive LLMCallResult where
  | response (text : String)
  | timeout
  | connectionError (msg : String)
deriving DecidableEq, Repr

/-- `HridaClient.generate_sql` after the HTTP call: strip, reject
gibberish and non-SELECT, append a missing semicolon, and score with
`_estimate_confidence`; every failure (including transport failures)
surfaces as a `HridaError`, modelled as `.error` with the exception
message.  The timeout message interpolates the default
`OLLAMA_TIMEOUT` of 90. -/
def hridaGenerateSql : LLMCallResult → Except String (String × ℚ)
  | .timeout => .error "Ollama request timed out after 90s"
  | .connectionError m => .error ("Ollama API error: " ++ m)
  | .response raw =>
    let sql := pyStrip raw
    if hridaIsGibberish sql then
      .error "Model generated invalid output (gibberish detected)"
    else if ¬ pyStartsWith (pyUpper sql) "SELECT" then
      .error "Model did not generate SELECT statement"
    else
      let sql := if pyEndsWith sql ";" then sql else sql ++ ";"
      .ok (sql, estimateConfidence sql)

/-! ## Semantic validator (`semantic_validator.py` lines 138-250)

The regex-based extractors `extract_company_names`,
`classify_query_intent`, `extract_state_codes` and `extract_years` are
modelled as oracle inputs (an `ExtractionOracle` carries their results
for the question and for the SQL under validation); the issue
construction and aggregation over those results is embedded directly. -/

/-- Results of the regex extractors for one
`validate_semantic_match(question, sql)` call: `companies`,
`intent`, `questionStates`, `questionYears` are functions of the
question; `sqlStates`, `sqlYears` of the SQL. -/
structure ExtractionOracle where
  companies : List String
  intent : String
  sqlStates : List String
  questionStates : List String
  sqlYears : List Int
  questionYears : List Int
deriving DecidableEq, Repr

/-- The `state_names` long-form map of `validate_semantic_match`
(`semantic_validator.py` lines 205-210), in dict insertion order. -/
def stateNames : List (String × String) :=
  [("california", "CA"), ("texas", "TX"), ("new york", "NY"), ("florida", "FL"),
   ("ohio", "OH"), ("illinois", "IL"), ("michigan", "MI"), ("pennsylvania", "PA"),
   ("georgia", "GA"), ("missouri", "MO"), ("indiana", "IN"), ("kentucky", "KY"),
   ("maryland", "MD"), ("vermont", "VT")]

/-- Python `repr` of an int list, used in the `WRONG_YEAR` message. -/
def reprIntList (xs : List Int) : String :=
  "[" ++ joinSep ", " (xs.map toString) ++ "]"

/-- The issue list built by `validate_semantic_match`: the four checks
in source order (entities, intent alignment, hallucinated state codes,
years). -/
def semanticIssues (ex : ExtractionOracle) (question sql : String) : List Issue :=
  let sqlUpper := pyUpper sql
  let entityIssues := ex.companies.filterMap (fun company =>
    if ¬ pyContains sql ("'" ++ company ++ "'")
        ∧ ¬ pyContains sql ("\"" ++ company ++ "\"") then
      if ¬ pyContains (pyLower sql) (pyLower company) then
        some { code := "MISSING_ENTITY", severity := "error",
               message := "Question mentions '" ++ company ++ "' but SQL doesn't reference it",
               suggestion := "Add WHERE name = '" ++ company ++ "' or similar filter",
               entity := some company }
      else none
    else none)
  let lookupStateIssues :=
    if ex.intent = "lookup_state" then
      if ¬ pyContains sqlUpper "STATE"
          ∨ (pyContains sqlUpper "SELECT"
              ∧ ¬ pyContains ⟨beforeSub "FROM".data sqlUpper.data⟩ "STATE") then
        let selectClause : String :=
          if pyContains sqlUpper "FROM" then ⟨beforeSub "FROM".data sqlUpper.data⟩
          else sqlUpper
        if ¬ pyContains selectClause "STATE" ∧ ¬ pyContains selectClause "C.STATE" then
          [{ code := "WRONG_SELECT", severity := "warning",
             message := "Question asks 'which state' but SQL doesn't SELECT state",
             suggestion := "SELECT state FROM companies WHERE ..." }]
        else []
      else []
    else []
  let countIssues :=
    if ex.intent = "count" ∧ ¬ pyContains sqlUpper "COUNT(" then
      [{ code := "MISSING_AGGREGATION", severity := "warning",
         message := "Question asks 'how many' but SQL doesn't use COUNT()",
         suggestion := "Use SELECT COUNT(*) FROM ..." }]
    else []
  let questionStates := ex.questionStates ++ stateNames.filterMap (fun nc =>
    if pyContains (pyLower question) nc.1 then some nc.2 else none)
  let hallucIssues := ex.sqlStates.filterMap (fun state =>
    let stateUpper := pyUpper state
    if stateUpper ∉ questionStates.map pyUpper then
      if pyContains (pyUpper sql) ("= '" ++ stateUpper ++ "'")
          ∨ pyContains sql ("= '" ++ state ++ "'") then
        some { code := "HALLUCINATED_VALUE", severity := "error",
               message := "SQL filters by state '" ++ stateUpper ++ "' but question doesn't mention this state",
               suggestion := "Remove hardcoded state filter or use correct state from question" }
      else none
    else none)
  let yearIssues := ex.sqlYears.filterMap (fun year =>
    if year ∉ ex.questionYears ∧ ex.questionYears ≠ [] then
      some { code := "WRONG_YEAR", severity := "warning",
             message := "SQL uses year " ++ toString year ++ " but question mentions "
               ++ reprIntList ex.questionYears,
             suggestion := "Use year(s) from question: " ++ reprIntList ex.questionYears }
    else none)
  entityIssues ++ lookupStateIssues ++ countIssues ++ hallucIssues ++ yearIssues

/-- `validate_semantic_match(question, sql, schema)`: the issue list and
`is_valid = not any(issue['severity'] == 'error')`.  The `schema`
argument is accepted and never read, as in the source. -/
def validateSemanticMatch (ex : ExtractionOracle) (question sql : String)
    (_schema : Schema) : Bool × List Issue :=
  let issues := semanticIssues ex question sql
  (!(issues.any (fun i => i.severity == "error")), issues)

/-! ## Keyword filter (`keyword_filter.py`) and its config constants -/

/-- `config.py` `QUERY_PATTERNS` (lines 817-824), in dict insertion
order. -/
def QUERY_PATTERNS : List (String × List String) :=
  [("count", ["how many", "count", "number of", "total"]),
   ("list", ["show", "list", "display", "get", "find"]),
   ("aggregate", ["average", "avg", "sum", "total", "max", "min"]),
   ("compare", ["compare", "difference", "between", "vs"]),
   ("trend", ["trend", "over time", "growth", "change", "year over year", "yoy"]),
   ("detail", ["information about", "details", "tell me about"])]

/-- `config.py` `TABLE_KEYWORDS` (lines 827-830). -/
def TABLE_KEYWORDS : List (String × List String) :=
  [("companies", ["company", "companies", "business", "businesses", "firm", "firms", "name"]),
   ("company_revenue_annual", ["revenue", "income", "earnings", "money", "sales", "financial", "year", "annual"])]

/-- `config.py` `COLUMN_KEYWORDS` (lines 833-843). -/
def COLUMN_KEYWORDS : List (String × List (String × List String)) :=
  [("companies",
    [("name", ["name", "company", "business"]),
     ("founding_year", ["founded", "founding", "established", "started", "year", "age", "old", "oldest", "newest"]),
     ("state", ["state", "location", "where", "located", "region"])]),
   ("company_revenue_annual",
    [("year", ["year", "when", "date", "time"]),
     ("revenue_millions", ["revenue", "income", "earnings", "money", "sales", "financial", "top", "highest", "lowest"])])]

/-- Python `\w` word characters (ASCII): letters, digits, underscore. -/
def isWordChar (c : Char) : Bool := c.isAlphanum || c = '_'

/-- Maximal runs of word characters (`re.findall(r'\b\w+\b', text)`),
accumulating the current word in reverse. -/
def splitWordsAux : List Char → List Char → List (List Char)
  | acc, [] => if acc.isEmpty then [] else [acc.reverse]
  | acc, c :: t =>
    if isWordChar c then splitWordsAux (c :: acc) t
    else if acc.isEmpty then splitWordsAux [] t
    else acc.reverse :: splitWordsAux [] t

/-- First-occurrence deduplication, modelling a Python `set` of words
(only membership and cardinality of intersections are used). -/
def dedupAux : List String → List String → List String
  | _, [] => []
  | seen, x :: t => if x ∈ seen then dedupAux seen t else x :: dedupAux (x :: seen) t

/-- `extract_keywords(question)` (`keyword_filter.py` lines 20-37): the
set of lowercase `\w+` words, as a duplicate-free list. -/
def extractKeywords (question : String) : List String :=
  dedupAux [] ((splitWordsAux [] (question.data.map Char.toLower)).map (⟨·⟩))

/-- The score of one table in `filter_tables` (`keyword_filter.py`
lines 69-96): table-keyword matches weighted 2, column-keyword matches
weighted 1, name-substring matches weighted 3, description-substring
matches weighted 0.5. -/
def tableScore (qk : List String) (tableName : String) (ti : TableInfo) : ℚ :=
  let s1 : ℚ := match TABLE_KEYWORDS.lookup tableName with
    | some kws => 2 * ((qk.filter (· ∈ kws)).length : ℚ)
    | none => 0
  let s2 : ℚ := match COLUMN_KEYWORDS.lookup tableName with
    | some cols => cols.foldl (fun acc ck => acc + ((qk.filter (· ∈ ck.2)).length : ℚ)) 0
    | none => 0
  let tl := pyLower tableName
  let s3 : ℚ := 3 * ((qk.filter (fun kw => pyContains tl kw || pyContains kw tl)).length : ℚ)
  let dl := pyLower ti.description
  let s4 : ℚ := (1/2) * ((qk.filter (fun kw => pyContains dl kw)).length : ℚ)
  s1 + s2 + s3 + s4

/-- Stable descending insertion for `sorted(..., key=score,
reverse=True)`: a later element goes after every already-placed element
of greater-or-equal score. -/
def insertScoreDesc (x : String × ℚ) : List (String × ℚ) → List (String × ℚ)
  | [] => [x]
  | y :: ys => if y.2 ≥ x.2 then y :: insertScoreDesc x ys else x :: y :: ys

/-- Python's stable sort by score, descending. -/
def sortByScoreDesc (xs : List (String × ℚ)) : List (String × ℚ) :=
  xs.foldl (fun acc x => insertScoreDesc x acc) []

/-- `filter_tables(question, schema)` (`keyword_filter.py` lines
40-117): score every table, sort descending, keep positive scores, and
fall back to ALL tables when nothing scored. -/
def filterTables (question : String) (schema : Schema) : List String :=
  let questionKeywords := extractKeywords question
  let tableScores := schema.map (fun kv => (kv.1, tableScore questionKeywords kv.1 kv.2))
  let sortedTables := sortByScoreDesc tableScores
  let selectedTables := (sortedTables.filter (fun p => p.2 > 0)).map (·.1)
  if selectedTables.isEmpty then schema.map (·.1) else selectedTables

/-- `build_filtered_schema(selected_tables, schema)`
(`keyword_filter.py` lines 120-140). -/
def buildFilteredSchema (selected : List String) (schema : Schema) : Schema :=
  selected.filterMap (fun tn => (schema.lookup tn).map (fun ti => (tn, ti)))

/-- `classify_intent(question)` (`keyword_filter.py` lines 143-167):
the first intent of `QUERY_PATTERNS` with a keyword occurring in the
lowercased question, else `"list"`. -/
def classifyIntent (question : String) : String :=
  let ql := pyLower question
  match QUERY_PATTERNS.find? (fun p => p.2.any (fun kw => pyContains ql kw)) with
  | some p => p.1
  | none => "list"

/-! ## The `/generate_sql` endpoint, legacy (MCPtest) flow
(`app.py` lines 236-462, with `schema_context = None`) -/

/-- The `error` field of a sidecar response. -/
structure ErrResp where
  etype : String
  message : String
  recoverable : Bool
deriving DecidableEq, Repr

/-- A `PythonSidecarResponse`, without the random `query_id` and the
optional trace (duration bookkeeping), neither of which any claim
concerns. -/
structure SidecarResponse where
  sql_generated : String
  confidence_score : ℚ
  tables_selected : List String
  intent : String
  notes : Option String
  error : Option ErrResp
deriving DecidableEq, Repr

/-- The semantic-repair merge of `generate_sql` (`app.py` lines
374-403): given the original SQL and confidence, the codes and count of
the initial error-severity issues, and the outcome of the repair call
together with its re-validation (`repaired sql`, `repaired confidence`,
`repair_valid`, number of error-severity repair issues), produce the
final `(sql, confidence, notes)`. -/
def semanticRepairMerge (origSql : String) (conf : ℚ) (errorCodes : List String)
    (errCount : ℕ) (repairOutcome : Except String (String × ℚ × Bool × ℕ)) :
    String × ℚ × Option String :=
  match repairOutcome with
  | .ok (rsql, rconf, rvalid, rerrs) =>
    if rvalid || decide (rerrs < errCount) then
      (rsql, max (6/10) (rconf - 1/10),
       some ("Auto-repaired semantic issues: " ++ joinSep ", " errorCodes))
    else
      (origSql, max (5/10) (conf - 2/10),
       some ("Semantic warnings (repair attempted): " ++ joinSep ", " errorCodes))
  | .error _ =>
    (origSql, max (4/10) (conf - 3/10),
     some ("Semantic issues detected but repair failed: " ++ joinSep ", " errorCodes))

/-- The `/repair_sql` endpoint's post-generation confidence adjustment
(`app.py` line 581): `max(0.5, confidence - 0.1 * attempt)`. -/
def repairSqlConfidence (conf : ℚ) (attempt : ℕ) : ℚ :=
  max (1/2) (conf - (attempt : ℚ) * (1/10))

/-- The legacy (`schema_context = None`) flow of the `/generate_sql`
endpoint (`app.py` lines 236-462): database check, stage-1 keyword
filtering over `MCPTEST_SCHEMA`, intent classification, prompt build,
generation, semantic validation, and the bounded one-shot semantic
repair.  `firstCall` and `repairCall` are the transport outcomes of the
two possible LLM calls; `exInit` and `exRepair` the extraction-oracle
results for the two validations (their question-derived fields coincide
in any real run).  A `HridaError` on the first call yields a
`generation` error with `recoverable = True`; an exception escaping to
the outer handler (only the repair-prompt `KeyError` here) yields an
`internal` error with `recoverable = False`. -/
def generateSqlEndpointLegacy (databaseId question : String)
    (firstCall repairCall : LLMCallResult)
    (exInit exRepair : ExtractionOracle) : SidecarResponse :=
  if databaseId ≠ "mcptest" then
    let err : ErrResp :=
      { etype := "validation",
        message := "Unsupported database: " ++ databaseId
          ++ ". Use schema_context for non-mcptest databases.",
        recoverable := false }
    { sql_generated := "", confidence_score := 0, tables_selected := [],
      intent := "", notes := none, error := some err }
  else
    let schema := MCPTEST_SCHEMA
    let selectedTables := filterTables question schema
    let intent := classifyIntent question
    let filteredSchema := buildFilteredSchema selectedTables schema
    match hridaGenerateSql firstCall with
    | .error e =>
      { sql_generated := "", confidence_score := 0,
        tables_selected := selectedTables, intent := intent, notes := none,
        error := some ⟨"generation", e, true⟩ }
    | .ok (sql, confidence) =>
      let v := validateSemanticMatch exInit question sql filteredSchema
      if v.1 then
        { sql_generated := sql, confidence_score := confidence,
          tables_selected := selectedTables, intent := intent,
          notes := if v.2.isEmpty then none
            else some ("Semantic warnings: " ++ joinSep ", " (v.2.map (·.code))),
          error := none }
      else
        let errorIssues := v.2.filter (fun i => i.severity == "error")
        match buildRepairPrompt question sql filteredSchema [] none v.2
            (some (schema.map (·.1))) with
        | .error m =>
          { sql_generated := "", confidence_score := 0, tables_selected := [],
            intent := "", notes := none,
            error := some ⟨"internal", "Internal error: " ++ m, false⟩ }
        | .ok _repairPrompt =>
          let repairOutcome : Except String (String × ℚ × Bool × ℕ) :=
            match hridaGenerateSql repairCall with
            | .ok (rsql, rconf) =>
              let rv := validateSemanticMatch exRepair question rsql filteredSchema
              .ok (rsql, rconf, rv.1, (rv.2.filter (fun i => i.severity == "error")).length)
            | .error m => .error m
          let merged := semanticRepairMerge sql confidence
            (errorIssues.map (·.code)) errorIssues.length repairOutcome
          { sql_generated := merged.1, confidence_score := merged.2.1,
            tables_selected := selectedTables, intent := intent,
            notes := merged.2.2, error := none }

/-! ## Config loader (`config_loader.py`)

YAML scalars/collections are modelled by `CVal`; dicts are association
lists in insertion order (keys unique, as in YAML mappings).  File
discovery and YAML parsing are IO and out of scope: `loadConfig` takes
the two parsed files and the environment as inputs. -/

/-- A YAML/JSON-like configuration value. -/
inductive CVal where
  | vnull
  | vbool (b : Bool)
  | vint (n : Int)
  | vstr (s : String)
  | vlist (xs : List CVal)
  | vdict (entries : List (String × CVal))

/-- Python `d[k]` / `d.get(k)` on an insertion-ordered dict. -/
def dictGet (d : List (String × CVal)) (k : String) : Option CVal :=
  d.lookup k

/-- Python `d[k] = v`: replace in place (keeping the original key and
position) or append. -/
def dictSet : List (String × CVal) → String → CVal → List (String × CVal)
  | [], k, v => [(k, v)]
  | (k', v') :: rest, k, v =>
    if k' = k then (k', v) :: rest else (k', v') :: dictSet rest k v

/-- Node count of a config dict, the measure bounding `_deep_merge`'s
recursion. -/
def dictSize : List (String × CVal) → Nat
  | [] => 0
  | (_, CVal.vdict d) :: rest => 2 + dictSize d + dictSize rest
  | (_, _) :: rest => 1 + dictSize rest

/-- Fuel-indexed worker for `_deep_merge`: the fuel only bounds the
recursion depth (it is spent on every step, nested or sibling) and
keeps the recursion structural; `dictSize b` fuel is always sufficient
(`deepMergeFuel_congr` below makes the result fuel-independent). -/
def deepMergeFuel : Nat → List (String × CVal) → List (String × CVal) →
    List (String × CVal)
  | _, result, [] => result
  | 0, result, _ :: _ => result
  | fuel + 1, result, (key, val) :: rest =>
    let newResult :=
      match val, dictGet result key with
      | .vdict dv, some (.vdict rv) =>
        dictSet result key (.vdict (deepMergeFuel fuel rv dv))
      | _, _ => dictSet result key val
    deepMergeFuel fuel newResult rest

/-- `_deep_merge(a, b)` (`config_loader.py` lines 33-45): `result =
dict(a)`, then for each `(key, val)` of `b` in order, recursively merge
when both sides are dicts, else assign `val` (lists and `None`
included). -/
def deepMerge (a b : List (String × CVal)) : List (String × CVal) :=
  deepMergeFuel (dictSize b) a b

/-- The process environment, `os.environ.get`. -/
abbrev Env := String → Option String

/-- Digits-to-value fold for `int(...)`. -/
def digitsVal (ds : List Char) : Int :=
  ds.foldl (fun acc c => acc * 10 + ((c.toNat : Int) - ('0'.toNat : Int))) 0

/-- Python `int(v)` on a stripped string: optional sign then at least
one digit, else `ValueError` (modelled as `none`). -/
def parseIntCore (cs : List Char) : Option Int :=
  match cs with
  | '-' :: t => if t ≠ [] ∧ t.all (·.isDigit) then some (-(digitsVal t)) else none
  | '+' :: t => if t ≠ [] ∧ t.all (·.isDigit) then some (digitsVal t) else none
  | t => if t ≠ [] ∧ t.all (·.isDigit) then some (digitsVal t) else none

/-- `_env_int(name)` (`config_loader.py` lines 69-76). -/
def envInt (env : Env) (name : String) : Option Int :=
  match env name with
  | none => none
  | some v => parseIntCore (stripCh v.data)

/-- `_env_bool(name)` (`config_loader.py` lines 62-66):
`v.lower() in ("true", "1")`. -/
def envBool (env : Env) (name : String) : Option Bool :=
  match env name with
  | none => none
  | some v => some (pyLower v = "true" || pyLower v = "1")

/-- Python `m.get(k)` used as a stored value: a missing key stores
`None`. -/
def cvalOfOpt : Option CVal → CVal
  | some v => v
  | none => .vnull

/-- Python `_env(name) or m.get(key)`: the env string when set and
non-empty (truthy), else the current dict value (possibly null). -/
def orStr (envVal : Option String) (fallback : Option CVal) : CVal :=
  match envVal with
  | some s => if s ≠ "" then .vstr s else cvalOfOpt fallback
  | none => cvalOfOpt fallback

/-- Python `_env_int(name) or m.get(key)`: the env int when parsed and
non-zero (truthy), else the current dict value. -/
def orInt (envVal : Option Int) (fallback : Option CVal) : CVal :=
  match envVal with
  | some n => if n ≠ 0 then .vint n else cvalOfOpt fallback
  | none => cvalOfOpt fallback

/-- `cfg.setdefault(name, {})` followed by item assignment requires the
existing value (if any) to be a dict; a non-dict raises `TypeError`. -/
def sectionDict : Option CVal → Except String (List (String × CVal))
  | none => .ok []
  | some (.vdict d) => .ok d
  | some _ => .error "TypeError"

/-- `_apply_env_overrides(cfg)` (`config_loader.py` lines 79-102), as a
function from the old to the new config: each section is read
(`setdefault`), updated field by field in source order, and written
back where the Python code mutates it in place; the `PORT` update
mutates the sidecar section after the logging section is handled. -/
def applyEnvOverrides (cfg : List (String × CVal)) (env : Env) :
    Except String (List (String × CVal)) := do
  let m ← sectionDict (dictGet cfg "model")
  let m := dictSet m "llm" (orStr (env "OLLAMA_MODEL") (dictGet m "llm"))
  let m := dictSet m "ollama_url" (orStr (env "OLLAMA_BASE_URL") (dictGet m "ollama_url"))
  let m := dictSet m "timeout" (orInt (envInt env "OLLAMA_TIMEOUT") (dictGet m "timeout"))
  let m := dictSet m "num_ctx"
    (match env "OLLAMA_NUM_CTX" with
     | some _ =>
       match envInt env "OLLAMA_NUM_CTX" with
       | some n => CVal.vint n
       | none => CVal.vnull
     | none => cvalOfOpt (dictGet m "num_ctx"))
  let m := dictSet m "sql_system_prompt"
    (orStr (env "SQL_SYSTEM_PROMPT") (dictGet m "sql_system_prompt"))
  let cfg := dictSet cfg "model" (.vdict m)
  let g ← sectionDict (dictGet cfg "generation")
  let g :=
    match envBool env "SEQUENTIAL_CANDIDATES" with
    | some b => dictSet g "sequential" (.vbool b)
    | none => g
  let cfg := dictSet cfg "generation" (.vdict g)
  let s ← sectionDict (dictGet cfg "sidecar")
  let s := dictSet s "join_hint_format"
    (orStr (env "JOIN_HINT_FORMAT") (dictGet s "join_hint_format"))
  let cfg := dictSet cfg "sidecar" (.vdict s)
  let l ← sectionDict (dictGet cfg "logging")
  let l := dictSet l "level" (orStr (env "LOG_LEVEL") (dictGet l "level"))
  let cfg := dictSet cfg "logging" (.vdict l)
  match envInt env "PORT" with
  | some p => do
    let s2 ← sectionDict (dictGet cfg "sidecar")
    pure (dictSet cfg "sidecar" (.vdict (dictSet s2 "port" (.vint p))))
  | none => pure cfg

/-- `load_config()` (`config_loader.py` lines 108-123) after file IO:
merge the parsed base and local files (local wins), then apply the
environment overrides. -/
def loadConfig (baseCfg localCfg : List (String × CVal)) (env : Env) :
    Except String (List (String × CVal)) :=
  applyEnvOverrides (deepMerge baseCfg localCfg) env

end NL2SQL

namespace NL2SQL

/-- Invariant of `candidatesLoop`: when every accumulated candidate's
normal form is in `seen` and the accumulated candidates are pairwise
distinct in normal form, the final candidate list is pairwise distinct
in normal form. -/
theorem candidatesLoop_pairwise (results : List GenResult) :
    ∀ (seen : List String) (cands : List (String × ℚ)) (pt ct : ℕ),
    (∀ c ∈ cands, normalizeSql c.1 ∈ seen) →
    cands.Pairwise (fun a b => normalizeSql a.1 ≠ normalizeSql b.1) →
    (candidatesLoop results seen cands pt ct).1.Pairwise
      (fun a b => normalizeSql a.1 ≠ normalizeSql b.1) := by
  induction results with
  | nil => intro seen cands pt ct _ hp; simpa [candidatesLoop] using hp
  | cons head rest ih =>
    intro seen cands pt ct hseen hp
    match head with
    | .error e => simpa [candidatesLoop] using ih seen cands pt ct hseen hp
    | .ok (sql, conf, ptoks, ctoks) =>
      simp only [candidatesLoop]
      split
      · exact ih _ _ _ _ hseen hp
      · rename_i hnotin
        refine ih _ _ _ _ ?_ ?_
        · intro c hc
          rcases List.mem_append.mp hc with h | h
          · exact List.mem_cons_of_mem _ (hseen c h)
          · simp only [List.mem_singleton] at h
            subst h
            exact List.mem_cons_self _ _
        · refine List.pairwise_append.mpr ⟨hp, List.pairwise_singleton _ _, ?_⟩
          intro a ha b hb
          simp only [List.mem_singleton] at hb
          subst hb
          intro hEq
          exact hnotin (hEq ▸ hseen a ha)

/-- C8: the candidate list returned by multi-candidate generation —
parallel or sequential, for any per-candidate outcomes — contains no
two SQL strings with equal lowercased, whitespace-collapsed (and
stripped, as in the source) normal forms. -/
theorem c8_candidates_deduplicated (results : List GenResult) :
    (generateCandidatesParallel results).1.Pairwise
      (fun a b => normalizeSql a.1 ≠ normalizeSql b.1)
    ∧ (generateCandidatesSequential results).1.Pairwise
      (fun a b => normalizeSql a.1 ≠ normalizeSql b.1) :=
  ⟨candidatesLoop_pairwise results [] [] 0 0 (by simp) (by simp),
   candidatesLoop_pairwise results [] [] 0 0 (by simp) (by simp)⟩

/-- C6: the generator's confidence score equals the clamp to [0,1] of
1.0 minus the shape penalties plus the simplicity bonus, with each
penalty keyed to the stated syntactic feature. -/
theorem c6_estimate_confidence_formula (sql : String) :
    estimateConfidence sql =
      max 0 (min 1 (1
        - (if 2 < pyCount (pyUpper sql) "JOIN" then (2/10 : ℚ) else 0)
        - (if pyContains (pyUpper sql) "HAVING" then (1/10 : ℚ) else 0)
        - (if pyContains (pyUpper sql) "WINDOW" ∨ pyContains (pyUpper sql) "OVER" then (1/10 : ℚ) else 0)
        - (if 500 < pyLen sql then (2/10 : ℚ) else 0)
        - (if 1 < pyCount sql "(SELECT" then (15/100 : ℚ) else 0)
        + (if pyCount (pyUpper sql) "JOIN" = 0 ∧ pyLen sql < 100 then (1/10 : ℚ) else 0))) := by
  unfold estimateConfidence
  simp only [Bool.or_eq_true]
  split_ifs <;> norm_num

end NL2SQL

namespace NL2SQL

/-- C7 counterexample: an output with exactly 10 `(` characters (and one
with exactly 5 `[` characters) is NOT rejected as gibberish in
single-candidate mode by either client, because the source tests
`count > 10` and `count > 5`, not `≥`. -/
theorem c7_counterexample :
    ("SELECT (((((((((( abcd" : String).data.count '(' = 10
    ∧ ollamaIsGibberish "SELECT (((((((((( abcd" false = false
    ∧ hridaIsGibberish "SELECT (((((((((( abcd" = false
    ∧ ("SELECT [[[[[ abcdefgh" : String).data.count '[' = 5
    ∧ ollamaIsGibberish "SELECT [[[[[ abcdefgh" false = false
    ∧ hridaIsGibberish "SELECT [[[[[ abcdefgh" = false := by
  refine ⟨by decide, by decide, by decide, by decide, by decide, by decide⟩

/-- C7 amended: in single-candidate mode both clients reject as
gibberish every output with MORE THAN 10 `(` or MORE THAN 5 `[`
characters, every output matching the digit-letter noise pattern
`\d{2,4}er\d+`, every output with three quoted single letters in a row,
every output shorter than 20 characters not beginning with `SELECT`
(case-insensitive), and every output containing `CANNOT_GENERATE`
(case-insensitive). -/
theorem c7_amended_gibberish_rejections :
    (∀ t : String, 10 < t.data.count '(' →
      ollamaIsGibberish t false = true ∧ hridaIsGibberish t = true)
    ∧ (∀ t : String, 5 < t.data.count '[' →
      ollamaIsGibberish t false = true ∧ hridaIsGibberish t = true)
    ∧ (∀ t : String, hasNoise t.data = true →
      ollamaIsGibberish t false = true ∧ hridaIsGibberish t = true)
    ∧ (∀ t : String, hasTripleQuoted t.data = true →
      ollamaIsGibberish t false = true ∧ hridaIsGibberish t = true)
    ∧ (∀ t : String, pyLen t < 20 → pyStartsWith (pyUpper t) "SELECT" = false →
      ollamaIsGibberish t false = true ∧ hridaIsGibberish t = true)
    ∧ (∀ t : String, pyContains (pyUpper t) "CANNOT_GENERATE" = true →
      ollamaIsGibberish t false = true ∧ hridaIsGibberish t = true) := by
  refine ⟨fun t h => ?_, fun t h => ?_, fun t h => ?_, fun t h => ?_,
    fun t h1 h2 => ?_, fun t h => ?_⟩ <;>
    constructor <;>
    · simp only [ollamaIsGibberish, hridaIsGibberish]
      simp_all [Bool.or_eq_true]

/-- Witness for `c7_amended_gibberish_rejections` at a concrete input
with 11 opening parentheses. -/
theorem c7_amended_witness :
    ollamaIsGibberish "(((((((((((" false = true
    ∧ hridaIsGibberish "(((((((((((" = true :=
  c7_amended_gibberish_rejections.1 "(((((((((((" (by decide)

end NL2SQL

namespace NL2SQL

set_option maxRecDepth 100000 in
/-- C4 (code bug): on the legacy path, `build_repair_prompt` with a
postgres error present does not produce `base + "\n\n" + deltas` at
all — formatting `REPAIR_DELTA_POSTGRES` raises
`KeyError('column_candidates_section')`, because the call site
(`config.py` lines 742-750) omits the `column_candidates_section`
argument that the template (line 156) requires.  Evaluated here at a
concrete failing input. -/
theorem c4_postgres_delta_keyerror :
    buildRepairPrompt "How many companies are there?" "SELECT 1;" MCPTEST_SCHEMA []
      (some { sqlstate := some "42703", message := some "column r does not exist",
              hint := none })
      [] none = .error "column_candidates_section" := by decide

end NL2SQL

namespace NL2SQL

/-- Membership in a stable descending insertion. -/
theorem mem_insertScoreDesc {x a : String × ℚ} :
    ∀ {l : List (String × ℚ)}, a ∈ insertScoreDesc x l → a = x ∨ a ∈ l := by
  intro l
  induction l with
  | nil => intro h; simp only [insertScoreDesc, List.mem_singleton] at h; exact Or.inl h
  | cons y ys ih =>
    intro h
    simp only [insertScoreDesc] at h
    split at h
    · rcases List.mem_cons.mp h with h | h
      · exact Or.inr (h ▸ List.mem_cons_self y ys)
      · rcases ih h with h | h
        · exact Or.inl h
        · exact Or.inr (List.mem_cons_of_mem _ h)
    · rcases List.mem_cons.mp h with h | h
      · exact Or.inl h
      · exact Or.inr h

/-- Membership in the stable descending sort. -/
theorem mem_sortByScoreDesc_fold {a : String × ℚ} :
    ∀ (xs acc : List (String × ℚ)),
    a ∈ xs.foldl (fun acc x => insertScoreDesc x acc) acc → a ∈ acc ∨ a ∈ xs := by
  intro xs
  induction xs with
  | nil => intro acc h; exact Or.inl h
  | cons x t ih =>
    intro acc h
    rcases ih (insertScoreDesc x acc) h with h' | h'
    · rcases mem_insertScoreDesc h' with h'' | h''
      · exact Or.inr (h'' ▸ List.mem_cons_self x t)
      · exact Or.inl h''
    · exact Or.inr (List.mem_cons_of_mem _ h')

/-- Column-keyword fold with all-empty intersections adds nothing. -/
theorem colFold_eq_start (qk : List String) :
    ∀ (cols : List (String × List String)) (start : ℚ),
    (∀ ck ∈ cols, qk.filter (· ∈ ck.2) = []) →
    cols.foldl (fun acc ck => acc + ((qk.filter (· ∈ ck.2)).length : ℚ)) start = start := by
  intro cols
  induction cols with
  | nil => intro start _; rfl
  | cons c t ih =>
    intro start h
    simp only [List.foldl_cons]
    rw [h c (List.mem_cons_self c t)]
    simpa using ih start (fun ck hk => h ck (List.mem_cons_of_mem _ hk))

/-- A table whose four keyword checks all come up empty scores zero in
`filter_tables`. -/
theorem tableScore_eq_zero (qk : List String) (tn : String) (ti : TableInfo)
    (h1 : Option.all (fun kws => (qk.filter (· ∈ kws)).isEmpty)
      (TABLE_KEYWORDS.lookup tn) = true)
    (h2 : Option.all (fun cols => cols.all (fun ck => (qk.filter (· ∈ ck.2)).isEmpty))
      (COLUMN_KEYWORDS.lookup tn) = true)
    (h3 : qk.filter (fun kw => pyContains (pyLower tn) kw || pyContains kw (pyLower tn)) = [])
    (h4 : qk.filter (fun kw => pyContains (pyLower ti.description) kw) = []) :
    tableScore qk tn ti = 0 := by
  simp only [tableScore]
  rw [h3, h4]
  rcases hk : TABLE_KEYWORDS.lookup tn with _ | kws <;>
    rcases hc : COLUMN_KEYWORDS.lookup tn with _ | cols <;>
    rw [hk] at h1 <;> rw [hc] at h2 <;>
    simp only [Option.all] at h1 h2
  · norm_num
  · norm_num [colFold_eq_start qk cols 0
      (fun ck hk' => List.isEmpty_iff.mp (List.all_eq_true.mp h2 ck hk'))]
  · norm_num [List.isEmpty_iff.mp h1]
  · norm_num [List.isEmpty_iff.mp h1,
      colFold_eq_start qk cols 0
        (fun ck hk' => List.isEmpty_iff.mp (List.all_eq_true.mp h2 ck hk'))]

/-- When every table scores zero, `filter_tables` returns the full
table list of the schema, in schema order. -/
theorem filterTables_all_scores_zero (question : String) (schema : Schema)
    (h : ∀ kv ∈ schema, tableScore (extractKeywords question) kv.1 kv.2 = 0) :
    filterTables question schema = schema.map (·.1) := by
  unfold filterTables sortByScoreDesc
  have hfil :
      ((schema.map fun kv => (kv.1, tableScore (extractKeywords question) kv.1 kv.2)).foldl
          (fun acc x => insertScoreDesc x acc) []).filter (fun p => decide (p.2 > 0)) = [] := by
    apply List.filter_eq_nil_iff.mpr
    intro p hp
    have hp' := mem_sortByScoreDesc_fold _ [] hp
    simp only [List.not_mem_nil, false_or] at hp'
    rcases List.mem_map.mp hp' with ⟨kv, hkv, rfl⟩
    simp [h kv hkv]
  simp only [hfil, List.map_nil, List.isEmpty_nil, if_pos]

end NL2SQL

namespace NL2SQL

/-- The everywhere-zero-score hypothesis for the concrete question
`"xyzzy plugh"` over the hardcoded schema. -/
theorem mcptest_scores_zero_xyzzy :
    ∀ kv ∈ MCPTEST_SCHEMA, tableScore (extractKeywords "xyzzy plugh") kv.1 kv.2 = 0 := by
  intro kv hkv
  simp only [MCPTEST_SCHEMA, List.mem_cons, List.not_mem_nil, or_false] at hkv
  rcases hkv with rfl | rfl <;>
    exact tableScore_eq_zero _ _ _ (by decide) (by decide) (by decide) (by decide)

set_option maxRecDepth 10000 in
/-- C1 amended: when retrieval scores every table zero, `filter_tables`
does not fail — it falls back to the FULL table list of the schema and
the pipeline proceeds; and the `/generate_sql` endpoint can only ever
report errors of type `validation`, `generation` or `internal` (no
`NoRelevantSchema` error exists). -/
theorem c1_amended_zero_score_fallback :
    (∀ (question : String) (schema : Schema),
      (∀ kv ∈ schema, tableScore (extractKeywords question) kv.1 kv.2 = 0) →
      filterTables question schema = schema.map (·.1))
    ∧ (∀ (databaseId question : String) (firstCall repairCall : LLMCallResult)
        (exInit exRepair : ExtractionOracle) (e : ErrResp),
        (generateSqlEndpointLegacy databaseId question firstCall repairCall
          exInit exRepair).error = some e →
        e.etype = "validation" ∨ e.etype = "generation" ∨ e.etype = "internal") := by
  constructor
  · exact filterTables_all_scores_zero
  · intro db q fc rc e1 e2 e h
    unfold generateSqlEndpointLegacy at h
    by_cases hdb : db ≠ "mcptest"
    · rw [if_pos hdb] at h
      exact Or.inl (by rw [← Option.some.inj h])
    · rw [if_neg hdb] at h
      rcases hg : hridaGenerateSql fc with m | ⟨sql, conf⟩ <;> rw [hg] at h
      · exact Or.inr (Or.inl (by rw [← Option.some.inj h]))
      · by_cases hv : (validateSemanticMatch e1 q sql
            (buildFilteredSchema (filterTables q MCPTEST_SCHEMA) MCPTEST_SCHEMA)).1 = true
        · exact Option.noConfusion ((congrArg SidecarResponse.error (if_pos hv)).symm.trans h)
        · have h2 := ((congrArg SidecarResponse.error (if_neg hv)).symm.trans h)
          rcases hbp : buildRepairPrompt q sql
              (buildFilteredSchema (filterTables q MCPTEST_SCHEMA) MCPTEST_SCHEMA) [] none
              (validateSemanticMatch e1 q sql
                (buildFilteredSchema (filterTables q MCPTEST_SCHEMA) MCPTEST_SCHEMA)).2
              (some (MCPTEST_SCHEMA.map (fun x => x.1))) with m | p <;> rw [hbp] at h2
          · exact Or.inr (Or.inr (by rw [← Option.some.inj h2]))
          · exact Option.noConfusion h2

/-- C1 counterexample: a question matching no table keywords at all
(every table scores zero) does NOT fail with any error — the fallback
selects every table and generation proceeds, returning SQL with
`error = None`. -/
theorem c1_counterexample :
    filterTables "xyzzy plugh" MCPTEST_SCHEMA = ["companies", "company_revenue_annual"]
    ∧ (generateSqlEndpointLegacy "mcptest" "xyzzy plugh" (.response "SELECT 1")
        (.response "SELECT 1") ⟨[], "general", [], [], [], []⟩
        ⟨[], "general", [], [], [], []⟩).error = none
    ∧ (generateSqlEndpointLegacy "mcptest" "xyzzy plugh" (.response "SELECT 1")
        (.response "SELECT 1") ⟨[], "general", [], [], [], []⟩
        ⟨[], "general", [], [], [], []⟩).sql_generated = "SELECT 1;" := by
  refine ⟨?_, by decide, by decide⟩
  exact (filterTables_all_scores_zero "xyzzy plugh" MCPTEST_SCHEMA
    mcptest_scores_zero_xyzzy).trans (by decide)

/-- Witness for `c1_amended_zero_score_fallback` at concrete inputs:
the fallback applied to `"xyzzy plugh"` over the hardcoded schema, and
the error-type conclusion for a concrete connection-error run. -/
theorem c1_amended_witness :
    filterTables "xyzzy plugh" MCPTEST_SCHEMA = MCPTEST_SCHEMA.map (·.1)
    ∧ ((⟨"generation", "Ollama API error: refused", true⟩ : ErrResp).etype = "validation"
      ∨ (⟨"generation", "Ollama API error: refused", true⟩ : ErrResp).etype = "generation"
      ∨ (⟨"generation", "Ollama API error: refused", true⟩ : ErrResp).etype = "internal") :=
  ⟨c1_amended_zero_score_fallback.1 "xyzzy plugh" MCPTEST_SCHEMA mcptest_scores_zero_xyzzy,
   c1_amended_zero_score_fallback.2 "mcptest" "q" (.connectionError "refused")
     (.response "SELECT 1") ⟨[], "general", [], [], [], []⟩ ⟨[], "general", [], [], [], []⟩
     ⟨"generation", "Ollama API error: refused", true⟩ (by decide)⟩

end NL2SQL

namespace NL2SQL

/-- C2 counterexample: after a successful semantic repair in
`generate_sql` with previous confidence 1 and repaired-generation
confidence 1/2, the assigned confidence is `max(0.6, repaired - 0.1)
= 0.6` — not `max(0.5, previous - 0.1) = 0.9` as claimed, and not the
claimed failed-repair value `max(0.4, previous - 0.3) = 0.7` either. -/
theorem c2_counterexample :
    (semanticRepairMerge "SELECT name FROM companies;" 1 ["MISSING_ENTITY"] 1
      (.ok ("SELECT 1;", 1/2, true, 0))).2.1 = 3/5
    ∧ (3/5 : ℚ) ≠ max (1/2) (1 - 1/10)
    ∧ (3/5 : ℚ) ≠ max (2/5) (1 - 3/10) := by
  refine ⟨?_, by rw [max_eq_right (by norm_num : (1/2:ℚ) ≤ 1 - 1/10)]; norm_num,
    by rw [max_eq_right (by norm_num : (2/5:ℚ) ≤ 1 - 3/10)]; norm_num⟩
  simp only [semanticRepairMerge, Bool.true_or, if_pos]
  rw [max_eq_left (by norm_num : (1/2 - 1/10 : ℚ) ≤ 6/10)]
  norm_num

/-- C2 amended: in `generate_sql`, the confidence after the semantic
repair is `max(0.6, repaired_confidence - 0.1)` when the repair
improved the SQL (re-validation passed or produced fewer error
issues), `max(0.5, previous - 0.2)` when it did not improve, and
`max(0.4, previous - 0.3)` when the repair call itself raised; in the
`/repair_sql` endpoint it is `max(0.5, generated - 0.1 * attempt)`. -/
theorem c2_amended_repair_confidence_formulas :
    (∀ (origSql : String) (conf : ℚ) (codes : List String) (errCount : ℕ)
      (rsql : String) (rconf : ℚ) (rvalid : Bool) (rerrs : ℕ),
      (semanticRepairMerge origSql conf codes errCount (.ok (rsql, rconf, rvalid, rerrs))).2.1 =
        if rvalid = true ∨ rerrs < errCount then max (6/10) (rconf - 1/10)
        else max (5/10) (conf - 2/10))
    ∧ (∀ (origSql : String) (conf : ℚ) (codes : List String) (errCount : ℕ) (msg : String),
      (semanticRepairMerge origSql conf codes errCount (.error msg)).2.1 = max (4/10) (conf - 3/10))
    ∧ (∀ (conf : ℚ) (attempt : ℕ),
      repairSqlConfidence conf attempt = max (1/2) (conf - (attempt : ℚ) * (1/10))) := by
  refine ⟨?_, fun _ _ _ _ _ => rfl, fun _ _ => rfl⟩
  intro origSql conf codes errCount rsql rconf rvalid rerrs
  by_cases hv : rvalid <;> by_cases he : rerrs < errCount <;>
    simp [semanticRepairMerge, hv, he]

/-- C5 counterexample: a connection failure on the generation call is
reported by `/generate_sql` with `recoverable = true`, not `false` as
claimed. -/
theorem c5_counterexample :
    (generateSqlEndpointLegacy "mcptest" "Show all companies"
      (.connectionError "Connection refused") (.response "SELECT 1")
      ⟨[], "list", [], [], [], []⟩ ⟨[], "list", [], [], [], []⟩).error
      = some ⟨"generation", "Ollama API error: Connection refused", true⟩
    ∧ (generateSqlEndpointLegacy "mcptest" "Show all companies"
      (.connectionError "Connection refused") (.response "SELECT 1")
      ⟨[], "list", [], [], [], []⟩ ⟨[], "list", [], [], [], []⟩).error.map
        ErrResp.recoverable ≠ some false := by
  exact ⟨by decide, by decide⟩

/-- C5 amended: the `/generate_sql` endpoint reports EVERY failed
generation call — connection/transport error or timeout alike — as a
`generation` error with `recoverable = true`; connection errors are
never marked non-repairable. -/
theorem c5_amended_connection_errors_recoverable :
    (∀ (question msg : String) (repairCall : LLMCallResult)
      (exInit exRepair : ExtractionOracle),
      (generateSqlEndpointLegacy "mcptest" question (.connectionError msg)
        repairCall exInit exRepair).error
        = some ⟨"generation", "Ollama API error: " ++ msg, true⟩)
    ∧ (∀ (question : String) (repairCall : LLMCallResult)
      (exInit exRepair : ExtractionOracle),
      (generateSqlEndpointLegacy "mcptest" question .timeout
        repairCall exInit exRepair).error
        = some ⟨"generation", "Ollama request timed out after 90s", true⟩) :=
  ⟨fun _ _ _ _ _ => rfl, fun _ _ _ _ => rfl⟩

end NL2SQL

namespace NL2SQL

/-- The estimator never goes below 0. -/
theorem estimateConfidence_nonneg (sql : String) : 0 ≤ estimateConfidence sql :=
  le_max_left 0 _

/-- The estimator never exceeds 1. -/
theorem estimateConfidence_le_one (sql : String) : estimateConfidence sql ≤ 1 := by
  unfold estimateConfidence
  exact max_le (by norm_num) (min_le_left _ _)

/-- A successful client call always returns `_estimate_confidence` of
the returned SQL as its confidence. -/
theorem hridaGenerateSql_ok_conf {c : LLMCallResult} {s : String} {q : ℚ}
    (h : hridaGenerateSql c = .ok (s, q)) : q = estimateConfidence s := by
  cases c with
  | timeout => simp [hridaGenerateSql] at h
  | connectionError m => simp [hridaGenerateSql] at h
  | response raw =>
    by_cases hg : hridaIsGibberish (pyStrip raw)
    · simp [hridaGenerateSql, hg] at h
    · by_cases hsel : pyStartsWith (pyUpper (pyStrip raw)) "SELECT"
      · by_cases hend : pyEndsWith (pyStrip raw) ";"
        · simp [hridaGenerateSql, hg, hsel, hend] at h
          obtain ⟨h1, h2⟩ := h
          rw [← h1, ← h2]
        · simp [hridaGenerateSql, hg, hsel, hend] at h
          obtain ⟨h1, h2⟩ := h
          rw [← h1, ← h2]
      · simp [hridaGenerateSql, hg, hsel] at h

set_option maxRecDepth 10000 in
/-- C3 amended: confidence is NOT monotonically non-increasing across
attempts, but it is bounded: whenever the initial generation succeeds
with confidence `conf`, the confidence finally reported by
`/generate_sql` never exceeds `max conf 0.9` (a successful repair is
capped at 0.9 because the repaired generation's own estimate is at
most 1). -/
theorem c3_amended_confidence_bound :
    ∀ (databaseId question : String) (firstCall repairCall : LLMCallResult)
      (exInit exRepair : ExtractionOracle) (sql : String) (conf : ℚ),
      hridaGenerateSql firstCall = .ok (sql, conf) →
      (generateSqlEndpointLegacy databaseId question firstCall repairCall exInit
        exRepair).confidence_score ≤ max conf (9/10) := by
  intro db q fc rc e1 e2 sql conf hg
  have hconf : conf = estimateConfidence sql := hridaGenerateSql_ok_conf hg
  have h0 : 0 ≤ conf := hconf ▸ estimateConfidence_nonneg sql
  unfold generateSqlEndpointLegacy
  by_cases hdb : db ≠ "mcptest"
  · rw [if_pos hdb]
    exact le_max_of_le_left h0
  · rw [if_neg hdb, hg]
    dsimp only
    by_cases hv : (validateSemanticMatch e1 q sql
        (buildFilteredSchema (filterTables q MCPTEST_SCHEMA) MCPTEST_SCHEMA)).1 = true
    · rw [if_pos hv]
      exact le_max_left conf _
    · rw [if_neg hv]
      rcases hbp : buildRepairPrompt q sql
          (buildFilteredSchema (filterTables q MCPTEST_SCHEMA) MCPTEST_SCHEMA) [] none
          (validateSemanticMatch e1 q sql
            (buildFilteredSchema (filterTables q MCPTEST_SCHEMA) MCPTEST_SCHEMA)).2
          (some (MCPTEST_SCHEMA.map (fun x => x.1))) with m | p <;>
        rw [hbp] <;> dsimp only
      · exact le_max_of_le_left h0
      · rcases hrep : hridaGenerateSql rc with m | pr <;> dsimp only
        · simp only [semanticRepairMerge]
          exact max_le (le_max_of_le_right (by norm_num))
              (le_max_of_le_left (by linarith))
        · obtain ⟨rsql, rconf⟩ := pr
          have hrle : rconf ≤ 1 :=
            (hridaGenerateSql_ok_conf hrep) ▸ estimateConfidence_le_one rsql
          simp only [semanticRepairMerge]
          split
          · exact le_max_of_le_right (max_le (by norm_num) (by linarith))
          · exact max_le (le_max_of_le_right (by norm_num))
              (le_max_of_le_left (by linarith))

/-- Witness for `c3_amended_confidence_bound` at a concrete run. -/
theorem c3_amended_witness :
    (generateSqlEndpointLegacy "mcptest" "xyzzy plugh" (.response "SELECT 1")
      (.response "SELECT 1") ⟨[], "general", [], [], [], []⟩
      ⟨[], "general", [], [], [], []⟩).confidence_score
      ≤ max (estimateConfidence "SELECT 1;") (9/10) :=
  c3_amended_confidence_bound "mcptest" "xyzzy plugh" (.response "SELECT 1")
    (.response "SELECT 1") ⟨[], "general", [], [], [], []⟩ ⟨[], "general", [], [], [], []⟩
    "SELECT 1;" (estimateConfidence "SELECT 1;") rfl

end NL2SQL

namespace NL2SQL

set_option maxRecDepth 40000 in
/-- C3 counterexample: confidence is NOT monotonically non-increasing.
A complex initial SQL (3 JOINs, HAVING, OVER, two nested `(SELECT`)
gets confidence 0.45; it misses the questioned entity, the semantic
repair produces a simple matching query whose own estimate is 1, and
the endpoint reports confidence `max(0.6, 1 - 0.1) = 0.9 > 0.45`. -/
theorem c3_counterexample :
    hridaGenerateSql (.response "SELECT c.name FROM companies c JOIN t1 ON a JOIN t2 ON b JOIN t3 ON c WHERE x IN (SELECT y FROM z) AND u IN (SELECT v FROM w) GROUP BY c.name HAVING COUNT(1) > 0 ORDER BY SUM(q) OVER ()")
      = .ok ("SELECT c.name FROM companies c JOIN t1 ON a JOIN t2 ON b JOIN t3 ON c WHERE x IN (SELECT y FROM z) AND u IN (SELECT v FROM w) GROUP BY c.name HAVING COUNT(1) > 0 ORDER BY SUM(q) OVER ();", 9/20)
    ∧ (generateSqlEndpointLegacy "mcptest" "Tell me about Zzz Qqq"
        (.response "SELECT c.name FROM companies c JOIN t1 ON a JOIN t2 ON b JOIN t3 ON c WHERE x IN (SELECT y FROM z) AND u IN (SELECT v FROM w) GROUP BY c.name HAVING COUNT(1) > 0 ORDER BY SUM(q) OVER ()")
        (.response "SELECT state FROM companies WHERE name = 'Zzz Qqq'")
        ⟨["Zzz Qqq"], "lookup_by_name", ["IN", "IN"], [], [], []⟩ ⟨["Zzz Qqq"], "lookup_by_name", [], [], [], []⟩).confidence_score = 9/10
    ∧ (9/20 : ℚ) < 9/10 := by
  have hE1 : estimateConfidence "SELECT c.name FROM companies c JOIN t1 ON a JOIN t2 ON b JOIN t3 ON c WHERE x IN (SELECT y FROM z) AND u IN (SELECT v FROM w) GROUP BY c.name HAVING COUNT(1) > 0 ORDER BY SUM(q) OVER ();" = 9/20 := by
    have hJ : pyCount (pyUpper "SELECT c.name FROM companies c JOIN t1 ON a JOIN t2 ON b JOIN t3 ON c WHERE x IN (SELECT y FROM z) AND u IN (SELECT v FROM w) GROUP BY c.name HAVING COUNT(1) > 0 ORDER BY SUM(q) OVER ();") "JOIN" = 3 := by decide
    have hH : pyContains (pyUpper "SELECT c.name FROM companies c JOIN t1 ON a JOIN t2 ON b JOIN t3 ON c WHERE x IN (SELECT y FROM z) AND u IN (SELECT v FROM w) GROUP BY c.name HAVING COUNT(1) > 0 ORDER BY SUM(q) OVER ();") "HAVING" = true := by decide
    have hW : pyContains (pyUpper "SELECT c.name FROM companies c JOIN t1 ON a JOIN t2 ON b JOIN t3 ON c WHERE x IN (SELECT y FROM z) AND u IN (SELECT v FROM w) GROUP BY c.name HAVING COUNT(1) > 0 ORDER BY SUM(q) OVER ();") "WINDOW" = false := by decide
    have hO : pyContains (pyUpper "SELECT c.name FROM companies c JOIN t1 ON a JOIN t2 ON b JOIN t3 ON c WHERE x IN (SELECT y FROM z) AND u IN (SELECT v FROM w) GROUP BY c.name HAVING COUNT(1) > 0 ORDER BY SUM(q) OVER ();") "OVER" = true := by decide
    have hLen : pyLen "SELECT c.name FROM companies c JOIN t1 ON a JOIN t2 ON b JOIN t3 ON c WHERE x IN (SELECT y FROM z) AND u IN (SELECT v FROM w) GROUP BY c.name HAVING COUNT(1) > 0 ORDER BY SUM(q) OVER ();" = 186 := by decide
    have hS : pyCount "SELECT c.name FROM companies c JOIN t1 ON a JOIN t2 ON b JOIN t3 ON c WHERE x IN (SELECT y FROM z) AND u IN (SELECT v FROM w) GROUP BY c.name HAVING COUNT(1) > 0 ORDER BY SUM(q) OVER ();" "(SELECT" = 2 := by decide
    simp only [estimateConfidence, hJ, hH, hW, hO, hLen, hS]
    norm_num
  refine ⟨?_, ?_, by norm_num⟩
  · have h0 : hridaGenerateSql (.response "SELECT c.name FROM companies c JOIN t1 ON a JOIN t2 ON b JOIN t3 ON c WHERE x IN (SELECT y FROM z) AND u IN (SELECT v FROM w) GROUP BY c.name HAVING COUNT(1) > 0 ORDER BY SUM(q) OVER ()")
        = .ok ("SELECT c.name FROM companies c JOIN t1 ON a JOIN t2 ON b JOIN t3 ON c WHERE x IN (SELECT y FROM z) AND u IN (SELECT v FROM w) GROUP BY c.name HAVING COUNT(1) > 0 ORDER BY SUM(q) OVER ();", estimateConfidence "SELECT c.name FROM companies c JOIN t1 ON a JOIN t2 ON b JOIN t3 ON c WHERE x IN (SELECT y FROM z) AND u IN (SELECT v FROM w) GROUP BY c.name HAVING COUNT(1) > 0 ORDER BY SUM(q) OVER ();") := rfl
    rw [h0, hE1]
  · have hz : ∀ kv ∈ MCPTEST_SCHEMA,
        tableScore (extractKeywords "Tell me about Zzz Qqq") kv.1 kv.2 = 0 := by
      intro kv hkv
      simp only [MCPTEST_SCHEMA, List.mem_cons, List.not_mem_nil, or_false] at hkv
      rcases hkv with rfl | rfl <;>
        exact tableScore_eq_zero _ _ _ (by decide) (by decide) (by decide) (by decide)
    have hft := filterTables_all_scores_zero "Tell me about Zzz Qqq" MCPTEST_SCHEMA hz
    unfold generateSqlEndpointLegacy
    rw [if_neg (by decide : ¬ ("mcptest" ≠ "mcptest"))]
    rw [show hridaGenerateSql (.response "SELECT c.name FROM companies c JOIN t1 ON a JOIN t2 ON b JOIN t3 ON c WHERE x IN (SELECT y FROM z) AND u IN (SELECT v FROM w) GROUP BY c.name HAVING COUNT(1) > 0 ORDER BY SUM(q) OVER ()")
      = .ok ("SELECT c.name FROM companies c JOIN t1 ON a JOIN t2 ON b JOIN t3 ON c WHERE x IN (SELECT y FROM z) AND u IN (SELECT v FROM w) GROUP BY c.name HAVING COUNT(1) > 0 ORDER BY SUM(q) OVER ();", estimateConfidence "SELECT c.name FROM companies c JOIN t1 ON a JOIN t2 ON b JOIN t3 ON c WHERE x IN (SELECT y FROM z) AND u IN (SELECT v FROM w) GROUP BY c.name HAVING COUNT(1) > 0 ORDER BY SUM(q) OVER ();") from rfl]
    dsimp only
    rw [hft]
    rw [show buildFilteredSchema (List.map (fun x => x.1) MCPTEST_SCHEMA) MCPTEST_SCHEMA
      = MCPTEST_SCHEMA from by decide]
    rw [show validateSemanticMatch ⟨["Zzz Qqq"], "lookup_by_name", ["IN", "IN"], [], [], []⟩ "Tell me about Zzz Qqq" "SELECT c.name FROM companies c JOIN t1 ON a JOIN t2 ON b JOIN t3 ON c WHERE x IN (SELECT y FROM z) AND u IN (SELECT v FROM w) GROUP BY c.name HAVING COUNT(1) > 0 ORDER BY SUM(q) OVER ();" MCPTEST_SCHEMA
      = ((false, [{ code := "MISSING_ENTITY", severity := "error", message := "Question mentions 'Zzz Qqq' but SQL doesn't reference it", suggestion := "Add WHERE name = 'Zzz Qqq' or similar filter", entity := some "Zzz Qqq" }]) : Bool × List Issue) from by decide]
    dsimp only
    rw [if_neg (by decide : ¬ (false = true))]
    have hok : (buildRepairPrompt "Tell me about Zzz Qqq" "SELECT c.name FROM companies c JOIN t1 ON a JOIN t2 ON b JOIN t3 ON c WHERE x IN (SELECT y FROM z) AND u IN (SELECT v FROM w) GROUP BY c.name HAVING COUNT(1) > 0 ORDER BY SUM(q) OVER ();" MCPTEST_SCHEMA [] none
        [{ code := "MISSING_ENTITY", severity := "error", message := "Question mentions 'Zzz Qqq' but SQL doesn't reference it", suggestion := "Add WHERE name = 'Zzz Qqq' or similar filter", entity := some "Zzz Qqq" }] (some (List.map (fun x => x.1) MCPTEST_SCHEMA))).isOk = true := by decide
    rcases hbp : buildRepairPrompt "Tell me about Zzz Qqq" "SELECT c.name FROM companies c JOIN t1 ON a JOIN t2 ON b JOIN t3 ON c WHERE x IN (SELECT y FROM z) AND u IN (SELECT v FROM w) GROUP BY c.name HAVING COUNT(1) > 0 ORDER BY SUM(q) OVER ();" MCPTEST_SCHEMA [] none
        [{ code := "MISSING_ENTITY", severity := "error", message := "Question mentions 'Zzz Qqq' but SQL doesn't reference it", suggestion := "Add WHERE name = 'Zzz Qqq' or similar filter", entity := some "Zzz Qqq" }] (some (List.map (fun x => x.1) MCPTEST_SCHEMA)) with m | p
    · rw [hbp] at hok
      exact Bool.noConfusion hok
    · rw [show hridaGenerateSql (.response "SELECT state FROM companies WHERE name = 'Zzz Qqq'")
        = .ok ("SELECT state FROM companies WHERE name = 'Zzz Qqq';", estimateConfidence "SELECT state FROM companies WHERE name = 'Zzz Qqq';") from rfl]
      dsimp only
      rw [show validateSemanticMatch ⟨["Zzz Qqq"], "lookup_by_name", [], [], [], []⟩ "Tell me about Zzz Qqq" "SELECT state FROM companies WHERE name = 'Zzz Qqq';" MCPTEST_SCHEMA
        = ((true, []) : Bool × List Issue) from by decide]
      rw [hbp]
      have hE2 : estimateConfidence "SELECT state FROM companies WHERE name = 'Zzz Qqq';" = 1 := by
        have hJ : pyCount (pyUpper "SELECT state FROM companies WHERE name = 'Zzz Qqq';") "JOIN" = 0 := by decide
        have hH : pyContains (pyUpper "SELECT state FROM companies WHERE name = 'Zzz Qqq';") "HAVING" = false := by decide
        have hW : pyContains (pyUpper "SELECT state FROM companies WHERE name = 'Zzz Qqq';") "WINDOW" = false := by decide
        have hO : pyContains (pyUpper "SELECT state FROM companies WHERE name = 'Zzz Qqq';") "OVER" = false := by decide
        have hLen : pyLen "SELECT state FROM companies WHERE name = 'Zzz Qqq';" = 51 := by decide
        have hS : pyCount "SELECT state FROM companies WHERE name = 'Zzz Qqq';" "(SELECT" = 0 := by decide
        simp only [estimateConfidence, hJ, hH, hW, hO, hLen, hS]
        norm_num
      simp only [semanticRepairMerge, hE2, Bool.true_or]
      rw [max_eq_right (by norm_num : (6/10 : ℚ) ≤ 1 - 1/10)]
      norm_num

end NL2SQL

namespace NL2SQL

/-- Every issue `validate_semantic_match` constructs carries one of the
five literal code/severity pairs of the source. -/
theorem semanticIssues_code_severity (ex : ExtractionOracle) (question sql : String) :
    ∀ i ∈ semanticIssues ex question sql,
      (i.code = "MISSING_ENTITY" ∧ i.severity = "error")
      ∨ (i.code = "WRONG_SELECT" ∧ i.severity = "warning")
      ∨ (i.code = "MISSING_AGGREGATION" ∧ i.severity = "warning")
      ∨ (i.code = "HALLUCINATED_VALUE" ∧ i.severity = "error")
      ∨ (i.code = "WRONG_YEAR" ∧ i.severity = "warning") := by
  intro i hi
  simp only [semanticIssues] at hi
  rcases List.mem_append.mp hi with hi | hYear
  · rcases List.mem_append.mp hi with hi | hHal
    · rcases List.mem_append.mp hi with hi | hCount
      · rcases List.mem_append.mp hi with hEnt | hSel
        · rcases List.mem_filterMap.mp hEnt with ⟨c, _, hf⟩
          split_ifs at hf
          · obtain rfl := Option.some.inj hf
            exact Or.inl ⟨rfl, rfl⟩
        · split_ifs at hSel <;>
            simp only [List.not_mem_nil, List.mem_singleton] at hSel
          all_goals
            obtain rfl := hSel
            exact Or.inr (Or.inl ⟨rfl, rfl⟩)
      · split_ifs at hCount <;>
          simp only [List.not_mem_nil, List.mem_singleton] at hCount
        obtain rfl := hCount
        exact Or.inr (Or.inr (Or.inl ⟨rfl, rfl⟩))
    · rcases List.mem_filterMap.mp hHal with ⟨st, _, hf⟩
      split_ifs at hf
      · obtain rfl := Option.some.inj hf
        exact Or.inr (Or.inr (Or.inr (Or.inl ⟨rfl, rfl⟩)))
  · rcases List.mem_filterMap.mp hYear with ⟨y, _, hf⟩
    split_ifs at hf
    · obtain rfl := Option.some.inj hf
      exact Or.inr (Or.inr (Or.inr (Or.inr ⟨rfl, rfl⟩)))

/-- C10: `validate_semantic_match` returns `is_valid = True` exactly
when no issue of severity `error` is present; the warning-severity
codes `WRONG_SELECT`, `MISSING_AGGREGATION`, `WRONG_YEAR` always carry
severity `warning` and therefore never make `is_valid` False. -/
theorem c10_semantic_validity (ex : ExtractionOracle) (question sql : String)
    (schema : Schema) :
    ((validateSemanticMatch ex question sql schema).1 = true ↔
      ∀ i ∈ (validateSemanticMatch ex question sql schema).2, i.severity ≠ "error")
    ∧ (∀ i ∈ (validateSemanticMatch ex question sql schema).2,
        i.code = "WRONG_SELECT" ∨ i.code = "MISSING_AGGREGATION" ∨ i.code = "WRONG_YEAR" →
        i.severity = "warning") := by
  constructor
  · simp only [validateSemanticMatch, Bool.not_eq_true', List.any_eq_false, beq_iff_eq]
  · intro i hi hcode
    have hi' : i ∈ semanticIssues ex question sql := hi
    rcases semanticIssues_code_severity ex question sql i hi' with
      ⟨hc, hs⟩ | ⟨hc, hs⟩ | ⟨hc, hs⟩ | ⟨hc, hs⟩ | ⟨hc, hs⟩ <;>
      first
      | exact hs
      | (rcases hcode with h | h | h <;> simp_all)

end NL2SQL

namespace NL2SQL

/-- Witness for `c10_semantic_validity`: a run with a single
warning-severity issue (`MISSING_AGGREGATION`) is still valid. -/
theorem c10_semantic_validity_witness :
    (validateSemanticMatch ⟨[], "count", [], [], [], []⟩ "How many companies?"
      "SELECT name FROM companies" []).1 = true :=
  (c10_semantic_validity ⟨[], "count", [], [], [], []⟩ "How many companies?"
    "SELECT name FROM companies" []).1.mpr (by decide)

end NL2SQL

namespace NL2SQL

/-- Looking up the key just set. -/
theorem dictGet_dictSet_self (d : List (String × CVal)) (k : String) (v : CVal) :
    dictGet (dictSet d k v) k = some v := by
  induction d with
  | nil => simp [dictSet, dictGet, List.lookup_cons]
  | cons p rest ih =>
    obtain ⟨k', v'⟩ := p
    by_cases h : k' = k
    · subst h
      simp [dictSet, dictGet, List.lookup_cons]
    · simpa [dictSet, dictGet, List.lookup_cons, h,
        beq_false_of_ne (Ne.symm h)] using ih

/-- Setting another key does not change a lookup. -/
theorem dictGet_dictSet_ne {k' k : String} (h : k' ≠ k) :
    ∀ (d : List (String × CVal)) (v : CVal),
    dictGet (dictSet d k' v) k = dictGet d k := by
  intro d v
  induction d with
  | nil => simp [dictSet, dictGet, List.lookup_cons, beq_false_of_ne (Ne.symm h)]
  | cons p rest ih =>
    obtain ⟨k'', v''⟩ := p
    by_cases h2 : k'' = k'
    · subst h2
      simp [dictSet, dictGet, List.lookup_cons, beq_false_of_ne (Ne.symm h)]
    · by_cases h3 : k'' = k
      · subst h3
        simp [dictSet, dictGet, List.lookup_cons, h2]
      · simpa [dictSet, dictGet, List.lookup_cons, h2,
          beq_false_of_ne (Ne.symm h3)] using ih

/-- Enough fuel: the worker's result does not depend on the exact fuel
as long as it is at least `dictSize b`. -/
theorem deepMergeFuel_congr :
    ∀ (fuel fuel' : Nat) (b result : List (String × CVal)),
    dictSize b ≤ fuel → dictSize b ≤ fuel' →
    deepMergeFuel fuel result b = deepMergeFuel fuel' result b := by
  intro fuel
  induction fuel with
  | zero =>
    intro fuel' b result h _
    cases b with
    | nil => cases fuel' <;> simp [deepMergeFuel]
    | cons p rest =>
      exfalso
      obtain ⟨key, val⟩ := p
      cases val <;> simp only [dictSize] at h <;> omega
  | succ f ih =>
    intro fuel' b result hb hb'
    cases b with
    | nil => cases fuel' <;> simp [deepMergeFuel]
    | cons p rest =>
      obtain ⟨key, val⟩ := p
      cases fuel' with
      | zero =>
        exfalso
        cases val <;> simp only [dictSize] at hb' <;> omega
      | succ f' =>
        rcases val with _ | bb | nn | ss | xs | dv
        case vdict =>
          simp only [dictSize] at hb hb'
          rcases hres : dictGet result key with _ | w
          · simp only [deepMergeFuel, hres]
            exact ih f' rest _ (by omega) (by omega)
          · rcases w with _ | bb2 | nn2 | ss2 | xs2 | rv
            case vdict =>
              simp only [deepMergeFuel, hres]
              rw [ih f' dv rv (by omega) (by omega)]
              exact ih f' rest _ (by omega) (by omega)
            all_goals
              simp only [deepMergeFuel, hres]
              exact ih f' rest _ (by omega) (by omega)
        all_goals
          simp only [dictSize] at hb hb'
          simp only [deepMergeFuel]
          exact ih f' rest _ (by omega) (by omega)

/-- Merging entries whose keys all differ from `k` leaves the lookup of
`k` unchanged (any fuel). -/
theorem deepMergeFuel_lookup_skip (k : String) :
    ∀ (fuel : Nat) (b result : List (String × CVal)), (∀ p ∈ b, p.1 ≠ k) →
    dictGet (deepMergeFuel fuel result b) k = dictGet result k := by
  intro fuel
  induction fuel with
  | zero => intro b result _; cases b <;> simp [deepMergeFuel]
  | succ f ih =>
    intro b result hb
    cases b with
    | nil => simp [deepMergeFuel]
    | cons p rest =>
      obtain ⟨key, val⟩ := p
      have hkey : key ≠ k := hb (key, val) (List.mem_cons_self _ _)
      simp only [deepMergeFuel]
      rw [ih rest _ (fun p hp => hb p (List.mem_cons_of_mem _ hp))]
      split
      · exact dictGet_dictSet_ne hkey _ _
      · exact dictGet_dictSet_ne hkey _ _

/-- When the local file maps `k` to a non-dict value (a list, a null, a
scalar), the merged config maps `k` to exactly that value. -/
theorem deepMergeFuel_lookup_replace {k : String} {v : CVal} :
    ∀ (fuel : Nat) (b result : List (String × CVal)), dictSize b ≤ fuel →
    (b.map Prod.fst).Nodup →
    dictGet b k = some v → (∀ dv, v ≠ .vdict dv) →
    dictGet (deepMergeFuel fuel result b) k = some v := by
  intro fuel
  induction fuel with
  | zero =>
    intro b result hsz _ hv _
    cases b with
    | nil => simp [dictGet] at hv
    | cons p rest =>
      exfalso
      obtain ⟨key, val⟩ := p
      cases val <;> simp only [dictSize] at hsz <;> omega
  | succ f ih =>
    intro b result hsz hnd hv hne
    cases b with
    | nil => simp [dictGet] at hv
    | cons p rest =>
      obtain ⟨key, val⟩ := p
      rw [List.map_cons, List.nodup_cons] at hnd
      by_cases hk : key = k
      · subst hk
        have hveq : val = v := by
          simpa [dictGet, List.lookup_cons] using hv
        subst hveq
        have hrest : ∀ p ∈ rest, p.1 ≠ key := by
          intro p hp hEq
          have hm : p.1 ∈ List.map Prod.fst rest := List.mem_map_of_mem _ hp
          rw [hEq] at hm
          exact hnd.1 hm
        simp only [deepMergeFuel]
        rw [deepMergeFuel_lookup_skip key f rest _ hrest]
        split
        · exfalso
          exact hne _ rfl
        all_goals exact dictGet_dictSet_self _ _ _
      · have hv' : dictGet rest k = some v := by
          simpa [dictGet, List.lookup_cons, beq_false_of_ne (Ne.symm hk)] using hv
        simp only [deepMergeFuel]
        refine ih rest _ ?_ hnd.2 hv' hne
        cases val <;> simp only [dictSize] at hsz <;> omega

/-- When both files map `k` to dicts, the merged config maps `k` to the
recursive merge of the two. -/
theorem deepMergeFuel_lookup_dicts {k : String} {db : List (String × CVal)} :
    ∀ (fuel : Nat) (b result da : List (String × CVal)), dictSize b ≤ fuel →
    (b.map Prod.fst).Nodup →
    dictGet b k = some (.vdict db) → dictGet result k = some (.vdict da) →
    dictGet (deepMergeFuel fuel result b) k = some (.vdict (deepMerge da db)) := by
  intro fuel
  induction fuel with
  | zero =>
    intro b result da hsz _ hv _
    cases b with
    | nil => simp [dictGet] at hv
    | cons p rest =>
      exfalso
      obtain ⟨key, val⟩ := p
      cases val <;> simp only [dictSize] at hsz <;> omega
  | succ f ih =>
    intro b result da hsz hnd hv hres
    cases b with
    | nil => simp [dictGet] at hv
    | cons p rest =>
      obtain ⟨key, val⟩ := p
      rw [List.map_cons, List.nodup_cons] at hnd
      by_cases hk : key = k
      · subst hk
        have hveq : val = .vdict db := by
          simpa [dictGet, List.lookup_cons] using hv
        subst hveq
        have hrest : ∀ p ∈ rest, p.1 ≠ key := by
          intro p hp hEq
          have hm : p.1 ∈ List.map Prod.fst rest := List.mem_map_of_mem _ hp
          rw [hEq] at hm
          exact hnd.1 hm
        simp only [dictSize] at hsz
        simp only [deepMergeFuel, hres]
        rw [deepMergeFuel_lookup_skip key f rest _ hrest, dictGet_dictSet_self]
        rw [deepMergeFuel_congr f (dictSize db) db da (by omega) (le_refl _)]
        rfl
      · have hv' : dictGet rest k = some (.vdict db) := by
          simpa [dictGet, List.lookup_cons, beq_false_of_ne (Ne.symm hk)] using hv
        simp only [deepMergeFuel]
        refine ih rest _ da ?_ hnd.2 hv' ?_
        · cases val <;> simp only [dictSize] at hsz <;> omega
        · split
          all_goals rw [dictGet_dictSet_ne hk]
          all_goals exact hres

/-- Inversion for a successful `Except` bind. -/
theorem exceptBind_eq_ok {ε α β : Type} {x : Except ε α} {f : α → Except ε β}
    {b : β} (h : x >>= f = Except.ok b) :
    ∃ a, x = Except.ok a ∧ f a = Except.ok b := by
  cases x with
  | error e => exact Except.noConfusion h
  | ok a => exact ⟨a, rfl, h⟩

/-- The `model` section written back by `_apply_env_overrides` is
untouched by the later `generation`, `sidecar` and `logging` section
writes. -/
theorem dictGet_model_after (cfg M : List (String × CVal)) (vg vs vl : CVal) :
    dictGet (dictSet (dictSet (dictSet (dictSet cfg "model" (.vdict M))
        "generation" vg) "sidecar" vs) "logging" vl) "model"
      = some (.vdict M) := by
  rw [dictGet_dictSet_ne (by decide : "logging" ≠ "model"),
    dictGet_dictSet_ne (by decide : "sidecar" ≠ "model"),
    dictGet_dictSet_ne (by decide : "generation" ≠ "model"),
    dictGet_dictSet_self]

/-- A set, non-empty (truthy) `OLLAMA_MODEL` environment variable ends
up verbatim in `model.llm` of the final config, whatever the files
said. -/
theorem applyEnvOverrides_model_llm {cfg out : List (String × CVal)} {env : Env}
    {s : String} (hs : env "OLLAMA_MODEL" = some s) (hne : s ≠ "")
    (hok : applyEnvOverrides cfg env = Except.ok out) :
    ∃ m, dictGet out "model" = some (.vdict m) ∧
      dictGet m "llm" = some (.vstr s) := by
  unfold applyEnvOverrides at hok
  obtain ⟨m0, hm0, hok⟩ := exceptBind_eq_ok hok
  obtain ⟨g0, hg0, hok⟩ := exceptBind_eq_ok hok
  obtain ⟨s0, hs0, hok⟩ := exceptBind_eq_ok hok
  obtain ⟨l0, hl0, hok⟩ := exceptBind_eq_ok hok
  rcases hp : envInt env "PORT" with _ | p <;> rw [hp] at hok
  · obtain rfl := Except.ok.inj hok
    refine ⟨_, dictGet_model_after _ _ _ _ _, ?_⟩
    rw [dictGet_dictSet_ne (by decide : "sql_system_prompt" ≠ "llm"),
      dictGet_dictSet_ne (by decide : "num_ctx" ≠ "llm"),
      dictGet_dictSet_ne (by decide : "timeout" ≠ "llm"),
      dictGet_dictSet_ne (by decide : "ollama_url" ≠ "llm"),
      dictGet_dictSet_self, hs]
    simp [orStr, hne]
  · obtain ⟨s2, hs2, hok⟩ := exceptBind_eq_ok hok
    obtain rfl := Except.ok.inj hok
    refine ⟨_, (dictGet_dictSet_ne (by decide : "sidecar" ≠ "model")
      _ _).trans (dictGet_model_after _ _ _ _ _), ?_⟩
    rw [dictGet_dictSet_ne (by decide : "sql_system_prompt" ≠ "llm"),
      dictGet_dictSet_ne (by decide : "num_ctx" ≠ "llm"),
      dictGet_dictSet_ne (by decide : "timeout" ≠ "llm"),
      dictGet_dictSet_ne (by decide : "ollama_url" ≠ "llm"),
      dictGet_dictSet_self, hs]
    simp [orStr, hne]

/-- C9 counterexample: a null value in the local file DOES override the
base file's value (`_deep_merge` assigns it like any scalar), and a set
environment variable does not always take precedence: with
`OLLAMA_TIMEOUT="0"` set, the merged `model.timeout` keeps the file
value 60 because `_env_int(...) or m.get(...)` treats the parsed 0 as
falsy. -/
theorem c9_counterexample :
    dictGet (deepMerge [("retries", CVal.vint 1)] [("retries", CVal.vnull)])
        "retries" = some CVal.vnull ∧
    some CVal.vnull ≠ some (CVal.vint 1) ∧
    (fun n => if n = "OLLAMA_TIMEOUT" then some "0" else none : Env)
        "OLLAMA_TIMEOUT" = some "0" ∧
    loadConfig [("model", CVal.vdict [("timeout", CVal.vint 60)])] []
        (fun n => if n = "OLLAMA_TIMEOUT" then some "0" else none) =
      Except.ok
        [("model", CVal.vdict
            [("timeout", CVal.vint 60), ("llm", CVal.vnull),
             ("ollama_url", CVal.vnull), ("num_ctx", CVal.vnull),
             ("sql_system_prompt", CVal.vnull)]),
         ("generation", CVal.vdict []),
         ("sidecar", CVal.vdict [("join_hint_format", CVal.vnull)]),
         ("logging", CVal.vdict [("level", CVal.vnull)])] := by
  have hm : deepMerge [("retries", CVal.vint 1)] [("retries", CVal.vnull)] =
      [("retries", CVal.vnull)] := by
    show deepMergeFuel (dictSize [("retries", CVal.vnull)]) _ _ = _
    rw [show dictSize [("retries", CVal.vnull)] = 1 by simp [dictSize]]
    rfl
  have hm0 : deepMerge [("model", CVal.vdict [("timeout", CVal.vint 60)])] [] =
      [("model", CVal.vdict [("timeout", CVal.vint 60)])] := by
    show deepMergeFuel (dictSize ([] : List (String × CVal))) _ _ = _
    rw [show dictSize ([] : List (String × CVal)) = 0 by simp [dictSize]]
    rfl
  refine ⟨by rw [hm]; rfl, fun h => CVal.noConfusion (Option.some.inj h), rfl, ?_⟩
  show applyEnvOverrides
      (deepMerge [("model", CVal.vdict [("timeout", CVal.vint 60)])] []) _ = _
  rw [hm0]
  rfl

/-- C9 (amended): when merging the two files, maps deep-merge while
every non-dict local value (lists AND nulls) replaces the base value
wholesale — in particular a local null overrides the base value rather
than preserving it — and a truthy environment variable (here a set,
non-empty `OLLAMA_MODEL`) takes precedence over both files. -/
theorem c9_amended_config_precedence :
    (∀ (a b : List (String × CVal)) (k : String) (xs : List CVal),
      (b.map Prod.fst).Nodup → dictGet b k = some (.vlist xs) →
      dictGet (deepMerge a b) k = some (.vlist xs)) ∧
    (∀ (a b : List (String × CVal)) (k : String)
       (da db : List (String × CVal)),
      (b.map Prod.fst).Nodup → dictGet b k = some (.vdict db) →
      dictGet a k = some (.vdict da) →
      dictGet (deepMerge a b) k = some (.vdict (deepMerge da db))) ∧
    (∀ (a b : List (String × CVal)) (k : String),
      (b.map Prod.fst).Nodup → dictGet b k = some .vnull →
      dictGet (deepMerge a b) k = some .vnull) ∧
    (∀ (cfg out : List (String × CVal)) (env : Env) (s : String),
      env "OLLAMA_MODEL" = some s → s ≠ "" →
      applyEnvOverrides cfg env = Except.ok out →
      ∃ m, dictGet out "model" = some (.vdict m) ∧
        dictGet m "llm" = some (.vstr s)) := by
  refine ⟨?_, ?_, ?_, ?_⟩
  · intro a b k xs hnd hv
    exact deepMergeFuel_lookup_replace (dictSize b) b a (le_refl _) hnd hv
      (fun dv h => CVal.noConfusion h)
  · intro a b k da db hnd hdb hda
    exact deepMergeFuel_lookup_dicts (dictSize b) b a da (le_refl _) hnd hdb hda
  · intro a b k hnd hv
    exact deepMergeFuel_lookup_replace (dictSize b) b a (le_refl _) hnd hv
      (fun dv h => CVal.noConfusion h)
  · intro cfg out env s hs hne hok
    exact applyEnvOverrides_model_llm hs hne hok

/-- C9 amended witness: list replacement, map deep-merge, null
override and truthy-env precedence at concrete configs. -/
theorem c9_amended_config_precedence_witness :
    dictGet (deepMerge [("items", CVal.vlist [CVal.vint 1, CVal.vint 2])]
        [("items", CVal.vlist [CVal.vint 3, CVal.vint 4, CVal.vint 5])])
        "items" = some (CVal.vlist [CVal.vint 3, CVal.vint 4, CVal.vint 5]) ∧
    dictGet (deepMerge [("top", CVal.vdict [("a", CVal.vint 1), ("b", CVal.vint 2)])]
        [("top", CVal.vdict [("b", CVal.vint 3), ("c", CVal.vint 4)])]) "top"
      = some (CVal.vdict (deepMerge [("a", CVal.vint 1), ("b", CVal.vint 2)]
          [("b", CVal.vint 3), ("c", CVal.vint 4)])) ∧
    dictGet (deepMerge [("x", CVal.vint 7)] [("x", CVal.vnull)]) "x"
      = some CVal.vnull ∧
    (∃ m, dictGet
        [("model", CVal.vdict
            [("llm", CVal.vstr "env-model"), ("ollama_url", CVal.vnull),
             ("timeout", CVal.vnull), ("num_ctx", CVal.vnull),
             ("sql_system_prompt", CVal.vnull)]),
         ("generation", CVal.vdict []),
         ("sidecar", CVal.vdict [("join_hint_format", CVal.vnull)]),
         ("logging", CVal.vdict [("level", CVal.vnull)])] "model"
        = some (.vdict m) ∧
      dictGet m "llm" = some (.vstr "env-model")) :=
  ⟨c9_amended_config_precedence.1 _ _ "items" _ (by decide) rfl,
   c9_amended_config_precedence.2.1 _ _ "top" _ _ (by decide) rfl rfl,
   c9_amended_config_precedence.2.2.1 _ _ "x" (by decide) rfl,
   c9_amended_config_precedence.2.2.2 []
     _ (fun n => if n = "OLLAMA_MODEL" then some "env-model" else none)
     "env-model" rfl (by decide) rfl⟩

end NL2SQL
